import Mathlib

/-!
# online-hibernation: the `hibernate` command (`cmd/hibernate/cmd.go`)

A shallow embedding of the process bootstrap in `cmd.go`.

* The local variables of `main` bound to command-line flags are the record `Flags`;
  the `flag.XxxVar` declarations give `declaredFlags`, and `flag.Parse()` applies a list
  of typed flag settings to it.
* Calls into other packages (`resource`, `rest`, `kubernetes`, `prometheus`, `cache`,
  `forcesleep`, `idling`, `glog`, `os`) are recorded, in program order, as `Event`s of a
  trace; what those calls answer is read from an `Env`.
* `*restclient.Config` values are pointers into a `Heap`, so that aliasing of
  `restConfig` and `promClientConfig` is visible.
* Channels, the cache and the two controllers are references with fresh identities.
* The body of the goroutine serving metrics is the function `metricsGoroutine`; `main`
  records the `go` statement with the variables the closure captures.  Interleavings of
  that goroutine with `main` are not modelled.
-/

namespace Hibernate

/-! ## Values -/

/-- Go `time.Duration`: a number of nanoseconds. -/
abbrev Duration := Int

def Nanosecond : Duration := 1
def Microsecond : Duration := 1000 * Nanosecond
def Millisecond : Duration := 1000 * Microsecond
def Second : Duration := 1000 * Millisecond
def Minute : Duration := 60 * Second
def Hour : Duration := 60 * Minute

/-- A parsed `resource.Quantity`; the library's representation is not inspected here. -/
structure Quantity where
  milli : Int
deriving DecidableEq, Repr

/-- The fields of `restclient.Config` that `cmd.go` reads or writes, and the others
kept as an association list. -/
structure RestConfig where
  Host : String
  APIPath : String
  BearerToken : String
  CAFile : String
  NegotiatedSerializer : Option String
  Other : List (String × String)
deriving DecidableEq, Repr

/-- Address of a `restclient.Config` on the heap. -/
abbrev Ptr := Nat

/-- The heap of `restclient.Config` objects; an address is an index. -/
structure Heap where
  configs : List RestConfig
deriving DecidableEq, Repr

def Heap.alloc (h : Heap) (c : RestConfig) : Ptr × Heap :=
  (h.configs.length, { configs := h.configs ++ [c] })

def Heap.load (h : Heap) (p : Ptr) : Option RestConfig :=
  h.configs[p]?

def Heap.store (h : Heap) (p : Ptr) (c : RestConfig) : Heap :=
  { configs := h.configs.set p c }

/-- The stop channel made by `make(chan struct{})`. -/
structure Chan where
  id : Nat
deriving DecidableEq, Repr

/-- Reference to the object returned by `cache.NewCache`. -/
structure CacheRef where
  id : Nat
deriving DecidableEq, Repr

/-- Reference to the object returned by `forcesleep.NewSleeper`. -/
structure SleeperRef where
  id : Nat
deriving DecidableEq, Repr

/-- Reference to the object returned by `idling.NewIdler`. -/
structure IdlerRef where
  id : Nat
deriving DecidableEq, Repr

/-- A Kubernetes client, with the configuration it was built from. -/
structure KubeClient where
  config : RestConfig
deriving DecidableEq, Repr

/-- An OpenShift client, with the configuration it was built from. -/
structure OsClient where
  config : RestConfig
deriving DecidableEq, Repr

/-- The round tripper returned by `restclient.TransportFor`; `cancelable` says whether
its dynamic type implements `prometheus.CancelableTransport`. -/
structure Transport where
  name : String
  cancelable : Bool
deriving DecidableEq, Repr

/-- Go `prometheus.Config`. -/
structure PromConfig where
  Address : String
  Transport : Transport
deriving DecidableEq, Repr

/-- The client returned by `prometheus.New`. -/
structure PrometheusClient where
  config : PromConfig
deriving DecidableEq, Repr

/-- Go `forcesleep.SleeperConfig`, as filled in by `main`. -/
structure SleeperConfig where
  Quota : Duration
  Period : Duration
  SleepSyncPeriod : Duration
  SyncWorkers : Int
  ProjectSleepPeriod : Duration
  TermQuota : Quantity
  NonTermQuota : Quantity
  DryRun : Bool
  QuotaClient : KubeClient
deriving DecidableEq, Repr

/-- Go `idling.IdlerConfig`, as filled in by `main`. -/
structure IdlerConfig where
  PrometheusClient : PrometheusClient
  IdleSyncPeriod : Duration
  IdleQueryPeriod : Duration
  SyncWorkers : Int
  Threshold : Int
  IdleDryRun : Bool
  ProjectSleepPeriod : Duration
deriving DecidableEq, Repr

/-- Go `forcesleep.MetricsConfig`. -/
structure MetricsConfig where
  CollectRuntime : Bool
  CollectCache : Bool
deriving DecidableEq, Repr

/-! ## Flags -/

/-- The local variables of `main` that are bound to command-line flags. -/
structure Flags where
  quota : Duration
  period : Duration
  sleepSyncPeriod : Duration
  idleSyncPeriod : Duration
  idleQueryPeriod : Duration
  projectSleepPeriod : Duration
  workers : Int
  threshold : Int
  cfgFile : String
  termQuota : String
  nontermQuota : String
  prometheusURL : String
  metricsBindAddr : String
  idleDryRun : Bool
  sleepDryRun : Bool
  collectRuntime : Bool
  collectCache : Bool
  enableProfiling : Bool
deriving DecidableEq, Repr

/-- The variables after the `flag.XxxVar` declarations of `main`: every variable holds
the default value of its flag. -/
def declaredFlags : Flags :=
  { quota := 16 * Hour                   -- "quota"
    period := 24 * Hour                  -- "period"
    sleepSyncPeriod := 60 * Minute       -- "sleep-sync-period"
    projectSleepPeriod := 8 * Hour       -- "sleep-duration", "z"
    sleepDryRun := true                  -- "sleep-dry-run"
    workers := 10                        -- "workers", "w"
    cfgFile := ""                        -- "config"
    termQuota := ""                      -- "terminating"
    nontermQuota := ""                   -- "nonterminating"
    metricsBindAddr := ":8080"           -- "metrics-bind-addr"
    enableProfiling := false             -- "enable-profiling"
    collectRuntime := true               -- "collect-runtime"
    collectCache := true                 -- "collect-cache"
    prometheusURL := "https://prometheus.openshift-devops-monitor.svc.cluster.local"
    idleSyncPeriod := 10 * Minute        -- "idle-sync-period"
    idleQueryPeriod := 30 * Minute       -- "idle-query-period"
    threshold := 5000                    -- "idle-threshold"
    idleDryRun := true }                 -- "idle-dry-run"

/-- One flag given on the command line, with a value of the type of its declaration. -/
inductive FlagSetting where
  | quota (d : Duration)
  | period (d : Duration)
  | sleepSyncPeriod (d : Duration)
  | sleepDuration (d : Duration)
  | sleepDryRun (b : Bool)
  | workers (n : Int)
  | config (s : String)
  | terminating (s : String)
  | nonterminating (s : String)
  | metricsBindAddr (s : String)
  | enableProfiling (b : Bool)
  | collectRuntime (b : Bool)
  | collectCache (b : Bool)
  | prometheusURL (s : String)
  | idleSyncPeriod (d : Duration)
  | idleQueryPeriod (d : Duration)
  | idleThreshold (n : Int)
  | idleDryRun (b : Bool)
deriving DecidableEq, Repr

/-- Assignment of one flag to the variable its declaration binds. -/
def Flags.assign (f : Flags) : FlagSetting → Flags
  | .quota d => { f with quota := d }
  | .period d => { f with period := d }
  | .sleepSyncPeriod d => { f with sleepSyncPeriod := d }
  | .sleepDuration d => { f with projectSleepPeriod := d }
  | .sleepDryRun b => { f with sleepDryRun := b }
  | .workers n => { f with workers := n }
  | .config s => { f with cfgFile := s }
  | .terminating s => { f with termQuota := s }
  | .nonterminating s => { f with nontermQuota := s }
  | .metricsBindAddr s => { f with metricsBindAddr := s }
  | .enableProfiling b => { f with enableProfiling := b }
  | .collectRuntime b => { f with collectRuntime := b }
  | .collectCache b => { f with collectCache := b }
  | .prometheusURL s => { f with prometheusURL := s }
  | .idleSyncPeriod d => { f with idleSyncPeriod := d }
  | .idleQueryPeriod d => { f with idleQueryPeriod := d }
  | .idleThreshold n => { f with threshold := n }
  | .idleDryRun b => { f with idleDryRun := b }

/-- The variables after `flag.Parse()`: the settings of the command line, left to right,
over the declared defaults. -/
def flagParse (args : List FlagSetting) : Flags :=
  args.foldl Flags.assign declaredFlags

/-! ## Environment, trace and control -/

/-- What the calls into other packages answer during one execution. -/
structure Env where
  /-- Answer of `resource.ParseQuantity`. -/
  parseQuantity : String → Except String Quantity
  /-- Answer of `restclient.InClusterConfig`: the config (or nil) and the error (or nil). -/
  inClusterConfig : Option RestConfig × Option String
  /-- Error of `kclient.NewForConfig`, if any. -/
  kubeNewForConfig : RestConfig → Option String
  /-- Error of `osclient.NewForConfig`, if any. -/
  osNewForConfig : RestConfig → Option String
  /-- Answer of `restclient.TransportFor`. -/
  transportFor : RestConfig → Except String Transport
  /-- Error of `prometheus.New`, if any. -/
  prometheusNew : PromConfig → Option String
  /-- Answer of `forcesleep.MetricsServer.Handler`: the name of the handler, or an error. -/
  metricsHandler : MetricsConfig → SleeperRef → Except String String
  /-- Error with which `http.Server.ListenAndServe` returns; `none` when it serves forever. -/
  listenAndServe : String → Option String

/-- The variables captured by the goroutine that serves metrics. -/
structure MetricsClosure where
  collectRuntime : Bool
  collectCache : Bool
  enableProfiling : Bool
  metricsBindAddr : String
  sleeper : SleeperRef
deriving DecidableEq, Repr

/-- A call out of `cmd.go`, with its arguments and what it answered. -/
inductive Event where
  | parseQuantity (str : String) (ok : Bool)
  | glogInfo (v : Nat) (msg : String)
  | glogFatal (msg : String)
  | osExit (code : Nat)
  | inClusterConfig (cfg : Option Ptr) (err : Option String)
  | kubeNewForConfig (p : Ptr) (cfg : RestConfig) (ok : Bool)
  | osNewForConfig (p : Ptr) (cfg : RestConfig) (ok : Bool)
  | transportFor (p : Ptr) (cfg : RestConfig) (ok : Bool)
  | prometheusNew (cfg : PromConfig) (ok : Bool)
  | makeChan (c : Chan)
  | restMapperReset
  | newCache (os : OsClient) (kube : KubeClient) (p : Ptr) (cfg : RestConfig) (k : CacheRef)
  | cacheRun (k : CacheRef) (c : Chan)
  | newSleeper (cfg : SleeperConfig) (k : CacheRef) (s : SleeperRef)
  | goMetrics (g : MetricsClosure)
  | sleeperRun (s : SleeperRef) (c : Chan)
  | newIdler (cfg : IdlerConfig) (k : CacheRef) (i : IdlerRef)
  | idlerRun (i : IdlerRef) (c : Chan)
  | recv (c : Chan)
deriving DecidableEq, Repr

/-- How `main` stops making progress. -/
inductive Halt where
  /-- The process ended through `os.Exit(code)`. -/
  | exit (code : Nat)
  /-- A run-time panic (the Go runtime then ends the process with status 2). -/
  | panic (msg : String)
  /-- The goroutine of `main` is blocked receiving from `c`. -/
  | blocked (c : Chan)
  /-- The function `main` returned. -/
  | returned
deriving DecidableEq, Repr

/-- The exit status of the process for a halt, when the halt ends the process. -/
def Halt.status : Halt → Option Nat
  | .exit code => some code
  | .panic _ => some 2
  | .blocked _ => none
  | .returned => some 0

/-- The state threaded through `main`. -/
structure St where
  heap : Heap
  nextId : Nat
  trace : List Event
deriving DecidableEq, Repr

def St.init : St := { heap := { configs := [] }, nextId := 0, trace := [] }

/-- One step of the program: a value and the next state, or a halt. -/
inductive Step (α : Type) where
  | ok (a : α) (s : St)
  | halt (h : Halt) (s : St)

/-- Computations of `cmd.go`. -/
def M (α : Type) : Type := St → Step α

def M.pure {α : Type} (a : α) : M α := fun s => .ok a s

def M.bind {α β : Type} (m : M α) (f : α → M β) : M β := fun s =>
  match m s with
  | .ok a s1 => f a s1
  | .halt h s1 => .halt h s1

instance : Monad M where
  pure := M.pure
  bind := M.bind

/-- Append an event to the trace. -/
def emit (e : Event) : M Unit := fun s => .ok () { s with trace := s.trace ++ [e] }

/-- Stop with the given halt. -/
def halt {α : Type} (h : Halt) : M α := fun s => .halt h s

/-- A fresh identity. -/
def fresh : M Nat := fun s => .ok s.nextId { s with nextId := s.nextId + 1 }

/-- Run-time panic of a nil pointer dereference. -/
def nilDeref {α : Type} : M α :=
  halt (.panic "runtime error: invalid memory address or nil pointer dereference")

/-- Dereference of a `*restclient.Config`. -/
def deref (p : Option Ptr) : M (Ptr × RestConfig) := fun s =>
  match p with
  | none => nilDeref s
  | some a =>
    match s.heap.load a with
    | none => nilDeref s
    | some c => .ok (a, c) s

/-- Assignment through a `*restclient.Config`: `p.field = value`. -/
def assign (p : Option Ptr) (upd : RestConfig → RestConfig) : M Unit := do
  let (a, c) ← deref p
  fun s => .ok () { s with heap := s.heap.store a (upd c) }

/-! ## Calls into other packages -/

/-- Call of `glog.V(v).Infof`. -/
def glogInfof (v : Nat) (msg : String) : M Unit := emit (.glogInfo v msg)

/-- Exit status of `glog.Fatal` and `glog.Fatalf`. -/
def glogFatalStatus : Nat := 255

/-- Call of `glog.Fatalf`: logs and ends the process. -/
def glogFatalf {α : Type} (msg : String) : M α := do
  emit (.glogFatal msg)
  halt (.exit glogFatalStatus)

/-- Call of `os.Exit`. -/
def osExit {α : Type} (code : Nat) : M α := do
  emit (.osExit code)
  halt (.exit code)

/-- Call of `resource.ParseQuantity`. -/
def ParseQuantity (env : Env) (str : String) : M (Except String Quantity) := do
  let r := env.parseQuantity str
  emit (.parseQuantity str r.toBool)
  return r

/-- Call of `restclient.InClusterConfig`; a returned config is a new object. -/
def InClusterConfig (env : Env) : M (Option Ptr × Option String) := do
  match env.inClusterConfig with
  | (none, err) =>
    emit (.inClusterConfig none err)
    return (none, err)
  | (some c, err) =>
    let p ← (fun s => let (p, h) := s.heap.alloc c; Step.ok p { s with heap := h } : M Ptr)
    emit (.inClusterConfig (some p) err)
    return (some p, err)

/-- Call of `kclient.NewForConfigOrDie`. -/
def kubeNewForConfigOrDie (env : Env) (p : Option Ptr) : M KubeClient := do
  let (a, c) ← deref p
  match env.kubeNewForConfig c with
  | some e =>
    emit (.kubeNewForConfig a c false)
    halt (.panic e)
  | none =>
    emit (.kubeNewForConfig a c true)
    return { config := c }

/-- Call of `osclient.NewForConfigOrDie`. -/
def osNewForConfigOrDie (env : Env) (p : Option Ptr) : M OsClient := do
  let (a, c) ← deref p
  match env.osNewForConfig c with
  | some e =>
    emit (.osNewForConfig a c false)
    halt (.panic e)
  | none =>
    emit (.osNewForConfig a c true)
    return { config := c }

/-- Call of `restclient.TransportFor`. -/
def TransportFor (env : Env) (p : Option Ptr) : M (Except String Transport) := do
  let (a, c) ← deref p
  let r := env.transportFor c
  emit (.transportFor a c r.toBool)
  return r

/-- The type assertion `transport.(prometheus.CancelableTransport)`. -/
def assertCancelable (t : Transport) : M Transport :=
  if t.cancelable then pure t
  else halt (.panic "interface conversion: not a prometheus.CancelableTransport")

/-- Call of `prometheus.New`. -/
def prometheusNew (env : Env) (cfg : PromConfig) : M (Except String PrometheusClient) := do
  match env.prometheusNew cfg with
  | some e =>
    emit (.prometheusNew cfg false)
    return .error e
  | none =>
    emit (.prometheusNew cfg true)
    return .ok { config := cfg }

/-- The statement `make(chan struct{})`. -/
def makeChan : M Chan := do
  let n ← fresh
  emit (.makeChan { id := n })
  return { id := n }

/-- Call of `cache.NewCache`. -/
def NewCache (os : OsClient) (kube : KubeClient) (p : Option Ptr) : M CacheRef := do
  let (a, c) ← deref p
  let n ← fresh
  emit (.newCache os kube a c { id := n })
  return { id := n }

/-- Call of `forcesleep.NewSleeper`. -/
def NewSleeper (cfg : SleeperConfig) (k : CacheRef) : M SleeperRef := do
  let n ← fresh
  emit (.newSleeper cfg k { id := n })
  return { id := n }

/-- Call of `idling.NewIdler`. -/
def NewIdler (cfg : IdlerConfig) (k : CacheRef) : M IdlerRef := do
  let n ← fresh
  emit (.newIdler cfg k { id := n })
  return { id := n }

/-! ## The program -/

/-- The assignment `clientConfig.NegotiatedSerializer = serializer.DirectCodecFactory...`. -/
def setNegotiatedSerializer (c : RestConfig) : RestConfig :=
  { c with NegotiatedSerializer := some "serializer.DirectCodecFactory(cache.Codecs)" }

/-- The CA file `main` sets on the config used for Prometheus. -/
def serviceCAFile : String := "/var/run/secrets/kubernetes.io/serviceaccount/service-ca.crt"

/-- The assignment `promClientConfig.CAFile = ...`. -/
def setCAFile (c : RestConfig) : RestConfig :=
  { c with CAFile := serviceCAFile }

/-- The function `CreateClientsForConfig` of `cmd.go`. -/
def CreateClientsForConfig (env : Env) : M (Option Ptr × KubeClient × Option String) := do
  let (clientConfig, err) ← InClusterConfig env
  match err with
  | some e => glogInfof 1 ("Error creating in-cluster config: " ++ e)
  | none => pure ()
  assign clientConfig setNegotiatedSerializer
  let kc ← kubeNewForConfigOrDie env clientConfig
  return (clientConfig, kc, err)

/-- The function `createClients` of `cmd.go`. -/
def createClients (env : Env) : M (Option Ptr × KubeClient × Option String) :=
  CreateClientsForConfig env

/-- An `http.ServeMux`: the registered patterns with the names of their handlers. -/
structure ServeMux where
  routes : List (String × String)
deriving DecidableEq, Repr

/-- The call `http.NewServeMux()`. -/
def NewServeMux : ServeMux := { routes := [] }

/-- The patterns registered on a mux. -/
def ServeMux.patterns (mux : ServeMux) : List String := mux.routes.map Prod.fst

/-- The method `(*http.ServeMux).Handle`: it panics on an empty pattern and on a pattern
registered before. -/
def ServeMux.Handle (mux : ServeMux) (pattern handler : String) : Except String ServeMux :=
  if pattern = "" then .error "http: invalid pattern"
  else if pattern ∈ mux.patterns then .error ("http: multiple registrations for " ++ pattern)
  else .ok { routes := mux.routes ++ [(pattern, handler)] }

/-- The function `setupPprof` of `cmd.go`. -/
def setupPprof (mux : ServeMux) : Except String ServeMux := do
  let mux ← mux.Handle "/debug/pprof/" "pprof.Index"
  let mux ← mux.Handle "/debug/pprof/cmdline" "pprof.Cmdline"
  let mux ← mux.Handle "/debug/pprof/profile" "pprof.Profile"
  let mux ← mux.Handle "/debug/pprof/symbol" "pprof.Symbol"
  mux.Handle "/debug/pprof/trace" "pprof.Trace"

/-- Go `http.Server`, as filled in by the goroutine. -/
structure HttpServer where
  Addr : String
  Handler : ServeMux
deriving DecidableEq, Repr

/-- What the goroutine serving metrics does: the server it builds, if it gets that far,
and how it ends the process (`none` when `ListenAndServe` never returns). -/
structure MetricsRun where
  server : Option HttpServer
  halt : Option Halt
deriving DecidableEq, Repr

/-- The body of the goroutine started by `main` ("Spawn metrics server and pprof
endpoints"). -/
def metricsGoroutine (env : Env) (g : MetricsClosure) : MetricsRun :=
  let metricsConfig : MetricsConfig :=
    { CollectRuntime := g.collectRuntime, CollectCache := g.collectCache }
  -- metricsHandlerBuilder.Handler()
  match env.metricsHandler metricsConfig g.sleeper with
  | .error _ =>
    -- glog.Fatalf("error setting up Prometheus metrics: %s", err)
    { server := none, halt := some (.exit glogFatalStatus) }
  | .ok metricsHandler =>
    let mux := NewServeMux
    match mux.Handle "/metrics" metricsHandler with
    | .error msg => { server := none, halt := some (.panic msg) }
    | .ok mux =>
      match (if g.enableProfiling then setupPprof mux else .ok mux) with
      | .error msg => { server := none, halt := some (.panic msg) }
      | .ok mux =>
        let httpServer : HttpServer := { Addr := g.metricsBindAddr, Handler := mux }
        -- glog.Fatal(httpServer.ListenAndServe())
        match env.listenAndServe httpServer.Addr with
        | some _ => { server := some httpServer, halt := some (.exit glogFatalStatus) }
        | none => { server := some httpServer, halt := none }

/-- The function `main` of `cmd.go`, after `log.SetOutput`, as a computation. -/
def mainM (env : Env) (args : List FlagSetting) : M Unit := do
  -- flag declarations, flag.Parse()
  let f := flagParse args
  let tQuota ← (do
    match ← ParseQuantity env f.termQuota with
    | .error e =>
      glogInfof 0 ("Error with terminating quota: " ++ e)
      osExit 1
    | .ok q => pure q)
  let ntQuota ← (do
    match ← ParseQuantity env f.nontermQuota with
    | .error e =>
      glogInfof 0 ("Error with non-terminating quota: " ++ e)
      osExit 1
    | .ok q => pure q)
  -- Set up clients
  let (restConfig, kubeClient, _) ← createClients env
  let osClient ← osNewForConfigOrDie env restConfig
  let promClientConfig := restConfig
  assign promClientConfig setCAFile
  let transport ← (do
    match ← TransportFor env promClientConfig with
    | .error e => glogFatalf ("Error creating prometheus client config: " ++ e)
    | .ok t => pure t)
  let promCfg : PromConfig :=
    { Address := f.prometheusURL
      Transport := ← assertCancelable transport }
  let prometheusClient ← (do
    match ← prometheusNew env promCfg with
    | .error e => glogFatalf ("Error creating Prometheus client: " ++ e)
    | .ok cl => pure cl)
  let c ← makeChan
  -- cachedDiscovery, restMapper, restMapper.Reset()
  emit .restMapperReset
  let cache ← NewCache osClient kubeClient restConfig
  emit (.cacheRun cache c)
  let sleeperConfig : SleeperConfig :=
    { Quota := f.quota
      Period := f.period
      SleepSyncPeriod := f.sleepSyncPeriod
      SyncWorkers := f.workers
      ProjectSleepPeriod := f.projectSleepPeriod
      TermQuota := tQuota
      NonTermQuota := ntQuota
      DryRun := f.sleepDryRun
      QuotaClient := kubeClient }
  let sleeper ← NewSleeper sleeperConfig cache
  -- go func() ... ()
  emit (.goMetrics
    { collectRuntime := f.collectRuntime
      collectCache := f.collectCache
      enableProfiling := f.enableProfiling
      metricsBindAddr := f.metricsBindAddr
      sleeper := sleeper })
  emit (.sleeperRun sleeper c)
  let idlerConfig : IdlerConfig :=
    { PrometheusClient := prometheusClient
      IdleSyncPeriod := f.idleSyncPeriod
      IdleQueryPeriod := f.idleQueryPeriod
      SyncWorkers := f.workers
      Threshold := f.threshold
      IdleDryRun := f.idleDryRun
      ProjectSleepPeriod := f.projectSleepPeriod }
  let idler ← NewIdler idlerConfig cache
  emit (.idlerRun idler c)
  -- <-c
  emit (.recv c)
  halt (.blocked c)

/-- One execution of `main`: the calls it made and how it stopped. -/
structure Run where
  trace : List Event
  halt : Halt
deriving DecidableEq, Repr

/-- The function `main` of `cmd.go`, run from the initial state. -/
def main (env : Env) (args : List FlagSetting) : Run :=
  match mainM env args St.init with
  | .ok _ s => { trace := s.trace, halt := .returned }
  | .halt h s => { trace := s.trace, halt := h }

/-! ## Sample environments -/

/-- A small table of quantities; every other string is rejected. -/
def sampleParse (str : String) : Except String Quantity :=
  if str = "1" then .ok { milli := 1000 }
  else if str = "2" then .ok { milli := 2000 }
  else if str = "500m" then .ok { milli := 500 }
  else .error "quantities must match the regular expression"

/-- A config as found inside a pod. -/
def sampleConfig : RestConfig :=
  { Host := "https://172.30.0.1:443"
    APIPath := ""
    BearerToken := "token"
    CAFile := "/var/run/secrets/kubernetes.io/serviceaccount/ca.crt"
    NegotiatedSerializer := none
    Other := [] }

/-- An environment in which every call succeeds. -/
def goodEnv : Env :=
  { parseQuantity := sampleParse
    inClusterConfig := (some sampleConfig, none)
    kubeNewForConfig := fun _ => none
    osNewForConfig := fun _ => none
    transportFor := fun _ => .ok { name := "http.Transport", cancelable := true }
    prometheusNew := fun _ => none
    metricsHandler := fun _ _ => .ok "promhttp.Handler"
    listenAndServe := fun _ => none }

/-- The error of `restclient.InClusterConfig` outside a cluster. -/
def errNotInCluster : String :=
  "unable to load in-cluster configuration, KUBERNETES_SERVICE_HOST and KUBERNETES_SERVICE_PORT must be defined"

/-- An environment outside a cluster: `InClusterConfig` returns nil and an error. -/
def outsideClusterEnv : Env :=
  { goodEnv with inClusterConfig := (none, some errNotInCluster) }

/-- An environment in which `restclient.TransportFor` fails. -/
def badTransportEnv : Env :=
  { goodEnv with transportFor := fun _ => .error "unable to read CA file" }

/-- An environment in which `prometheus.New` fails. -/
def badPrometheusEnv : Env :=
  { goodEnv with prometheusNew := fun _ => some "invalid address" }

/-! ## Classes of events -/

/-- Creation of a client of the cluster or of Prometheus. -/
def Event.isClient : Event → Bool
  | .kubeNewForConfig _ _ _ => true
  | .osNewForConfig _ _ _ => true
  | .transportFor _ _ _ => true
  | .prometheusNew _ _ => true
  | _ => false

/-- Construction of the cache. -/
def Event.isNewCache : Event → Bool
  | .newCache _ _ _ _ _ => true
  | _ => false

/-- Construction of the force-sleep controller or of the idle controller. -/
def Event.isNewController : Event → Bool
  | .newSleeper _ _ _ => true
  | .newIdler _ _ _ => true
  | _ => false

/-- A `Run` call: `cache.Run`, `sleeper.Run` or `idler.Run`. -/
def Event.isRun : Event → Bool
  | .cacheRun _ _ => true
  | .sleeperRun _ _ => true
  | .idlerRun _ _ => true
  | _ => false

/-- A call of `restclient.TransportFor` or of `prometheus.New` that returned an error. -/
def Event.isTransportSetupError : Event → Bool
  | .transportFor _ _ false => true
  | .prometheusNew _ false => true
  | _ => false

/-- The stop channel an event is given or makes, if any. -/
def Event.chan? : Event → Option Chan
  | .makeChan c => some c
  | .cacheRun _ c => some c
  | .sleeperRun _ c => some c
  | .idlerRun _ c => some c
  | .recv c => some c
  | _ => none

/-- The statement `make(chan struct{})`. -/
def Event.isMakeChan : Event → Bool
  | .makeChan _ => true
  | _ => false

/-- A call made before the stop channel exists: the quota check, the clients, the logs
and the exits. -/
def Event.isSetup : Event → Bool
  | .parseQuantity _ _ => true
  | .glogInfo _ _ => true
  | .glogFatal _ => true
  | .osExit _ => true
  | .inClusterConfig _ _ => true
  | .kubeNewForConfig _ _ _ => true
  | .osNewForConfig _ _ _ => true
  | .transportFor _ _ _ => true
  | .prometheusNew _ _ => true
  | _ => false

/-- The cache an event is given or returns, if any. -/
def Event.cache? : Event → Option CacheRef
  | .newCache _ _ _ _ k => some k
  | .cacheRun k _ => some k
  | .newSleeper _ k _ => some k
  | .newIdler _ k _ => some k
  | _ => none

/-! ## The execution that reaches the run phase -/

/-- What the calls of the bootstrap answered on an execution on which all of them
succeeded. -/
structure Boot where
  tQuota : Quantity
  ntQuota : Quantity
  /-- The config `InClusterConfig` returned. -/
  config : RestConfig
  /-- The error `InClusterConfig` returned next to the config. -/
  err : Option String
  transport : Transport

/-- The config at the return of `createClients`. -/
def Boot.created (b : Boot) : RestConfig := setNegotiatedSerializer b.config

/-- The config after `main` has set the CA file. -/
def Boot.final (b : Boot) : RestConfig := setCAFile b.created

/-- The environment answers every call of the bootstrap with success, as `b` says. -/
def Booted (env : Env) (args : List FlagSetting) (b : Boot) : Prop :=
  env.parseQuantity (flagParse args).termQuota = .ok b.tQuota ∧
  env.parseQuantity (flagParse args).nontermQuota = .ok b.ntQuota ∧
  env.inClusterConfig = (some b.config, b.err) ∧
  env.kubeNewForConfig b.created = none ∧
  env.osNewForConfig b.created = none ∧
  env.transportFor b.final = .ok b.transport ∧
  b.transport.cancelable = true ∧
  env.prometheusNew { Address := (flagParse args).prometheusURL, Transport := b.transport } = none

/-- The `SleeperConfig` of the execution `b`. -/
def Boot.sleeperConfig (args : List FlagSetting) (b : Boot) : SleeperConfig :=
  { Quota := (flagParse args).quota
    Period := (flagParse args).period
    SleepSyncPeriod := (flagParse args).sleepSyncPeriod
    SyncWorkers := (flagParse args).workers
    ProjectSleepPeriod := (flagParse args).projectSleepPeriod
    TermQuota := b.tQuota
    NonTermQuota := b.ntQuota
    DryRun := (flagParse args).sleepDryRun
    QuotaClient := { config := b.created } }

/-- The `IdlerConfig` of the execution `b`. -/
def Boot.idlerConfig (args : List FlagSetting) (b : Boot) : IdlerConfig :=
  { PrometheusClient :=
      { config := { Address := (flagParse args).prometheusURL, Transport := b.transport } }
    IdleSyncPeriod := (flagParse args).idleSyncPeriod
    IdleQueryPeriod := (flagParse args).idleQueryPeriod
    SyncWorkers := (flagParse args).workers
    Threshold := (flagParse args).threshold
    IdleDryRun := (flagParse args).idleDryRun
    ProjectSleepPeriod := (flagParse args).projectSleepPeriod }

/-- The log call of `CreateClientsForConfig` for the error of `InClusterConfig`. -/
def inClusterLog : Option String → List Event
  | some e => [.glogInfo 1 ("Error creating in-cluster config: " ++ e)]
  | none => []

/-- The calls of an execution on which both quotas parse, up to the return of
`InClusterConfig` and the log call that follows it. -/
def quotaTrace (args : List FlagSetting) (cfg : Option Ptr) (err : Option String) : List Event :=
  [ .parseQuantity (flagParse args).termQuota true,
    .parseQuantity (flagParse args).nontermQuota true,
    .inClusterConfig cfg err ] ++ inClusterLog err

/-- The calls of the execution `b` up to the creation of the stop channel. -/
def Boot.setupTrace (args : List FlagSetting) (b : Boot) : List Event :=
  quotaTrace args (some 0) b.err ++
  [ .kubeNewForConfig 0 b.created true,
    .osNewForConfig 0 b.created true,
    .transportFor 0 b.final true,
    .prometheusNew { Address := (flagParse args).prometheusURL, Transport := b.transport } true ]

/-- The calls of the execution `b` from the creation of the stop channel on. -/
def Boot.runTrace (args : List FlagSetting) (b : Boot) : List Event :=
  [ .makeChan { id := 0 },
    .restMapperReset,
    .newCache { config := b.created } { config := b.created } 0 b.final { id := 1 },
    .cacheRun { id := 1 } { id := 0 },
    .newSleeper (b.sleeperConfig args) { id := 1 } { id := 2 },
    .goMetrics
      { collectRuntime := (flagParse args).collectRuntime
        collectCache := (flagParse args).collectCache
        enableProfiling := (flagParse args).enableProfiling
        metricsBindAddr := (flagParse args).metricsBindAddr
        sleeper := { id := 2 } },
    .sleeperRun { id := 2 } { id := 0 },
    .newIdler (b.idlerConfig args) { id := 1 } { id := 3 },
    .idlerRun { id := 3 } { id := 0 },
    .recv { id := 0 } ]

/-- A call of the quota check at the start of `main`: parsing, its log line, the exit. -/
def Event.isQuotaCheck : Event → Bool
  | .parseQuantity _ _ => true
  | .glogInfo _ _ => true
  | .osExit _ => true
  | _ => false

/-- An environment in which `InClusterConfig` returns a config together with an error
(the library itself returns nil with every error). -/
def configAndErrorEnv : Env :=
  { goodEnv with inClusterConfig := (some sampleConfig, some "warning") }

/-- A command line that gives both quotas. -/
def sampleArgs : List FlagSetting := [.terminating "1", .nonterminating "2"]

/-- The answers of `goodEnv` on the command line `sampleArgs`. -/
def sampleBoot : Boot :=
  { tQuota := { milli := 1000 }
    ntQuota := { milli := 2000 }
    config := sampleConfig
    err := none
    transport := { name := "http.Transport", cancelable := true } }

/-- The config an event is handed: its address and its content at the call. -/
def Event.config? : Event → Option (Ptr × RestConfig)
  | .kubeNewForConfig p cfg _ => some (p, cfg)
  | .osNewForConfig p cfg _ => some (p, cfg)
  | .transportFor p cfg _ => some (p, cfg)
  | .newCache _ _ p cfg _ => some (p, cfg)
  | _ => none

/-- The two flags that give the quotas. -/
def FlagSetting.isQuota : FlagSetting → Bool
  | .terminating _ => true
  | .nonterminating _ => true
  | _ => false

/-- The variables with the two quota strings blanked: what the other flags decide. -/
def Flags.clearQuotas (f : Flags) : Flags :=
  { f with termQuota := "", nontermQuota := "" }

/-- The flag `--terminating`. -/
def FlagSetting.isTerminating : FlagSetting → Bool
  | .terminating _ => true
  | _ => false

/-- The flag `--nonterminating`. -/
def FlagSetting.isNonterminating : FlagSetting → Bool
  | .nonterminating _ => true
  | _ => false

/-- The patterns `setupPprof` registers. -/
def pprofPatterns : List String :=
  [ "/debug/pprof/", "/debug/pprof/cmdline", "/debug/pprof/profile", "/debug/pprof/symbol",
    "/debug/pprof/trace" ]

/-- The `forcesleep.MetricsConfig` the goroutine builds from the captured flags. -/
def MetricsClosure.config (g : MetricsClosure) : MetricsConfig :=
  { CollectRuntime := g.collectRuntime, CollectCache := g.collectCache }

/-- The closure of the goroutine on `sampleArgs`, and the same with profiling on. -/
def sampleClosure (profiling : Bool) : MetricsClosure :=
  { collectRuntime := true
    collectCache := true
    enableProfiling := profiling
    metricsBindAddr := ":8080"
    sleeper := { id := 2 } }

/-- The value a flag holds, by the type of its declaration. -/
inductive FlagValue where
  | duration (d : Duration)
  | int (n : Int)
  | string (s : String)
  | bool (b : Bool)
deriving DecidableEq, Repr

/-- The name under which `main` declares the flag of a setting. -/
def FlagSetting.name : FlagSetting → String
  | .quota _ => "quota"
  | .period _ => "period"
  | .sleepSyncPeriod _ => "sleep-sync-period"
  | .sleepDuration _ => "sleep-duration"
  | .sleepDryRun _ => "sleep-dry-run"
  | .workers _ => "workers"
  | .config _ => "config"
  | .terminating _ => "terminating"
  | .nonterminating _ => "nonterminating"
  | .metricsBindAddr _ => "metrics-bind-addr"
  | .enableProfiling _ => "enable-profiling"
  | .collectRuntime _ => "collect-runtime"
  | .collectCache _ => "collect-cache"
  | .prometheusURL _ => "prometheus-url"
  | .idleSyncPeriod _ => "idle-sync-period"
  | .idleQueryPeriod _ => "idle-query-period"
  | .idleThreshold _ => "idle-threshold"
  | .idleDryRun _ => "idle-dry-run"

/-- The value a setting gives to its flag. -/
def FlagSetting.value : FlagSetting → FlagValue
  | .quota d => .duration d
  | .period d => .duration d
  | .sleepSyncPeriod d => .duration d
  | .sleepDuration d => .duration d
  | .sleepDryRun b => .bool b
  | .workers n => .int n
  | .config s => .string s
  | .terminating s => .string s
  | .nonterminating s => .string s
  | .metricsBindAddr s => .string s
  | .enableProfiling b => .bool b
  | .collectRuntime b => .bool b
  | .collectCache b => .bool b
  | .prometheusURL s => .string s
  | .idleSyncPeriod d => .duration d
  | .idleQueryPeriod d => .duration d
  | .idleThreshold n => .int n
  | .idleDryRun b => .bool b

/-- The value of the flag `name` on a command line, read off the command line alone: the
value of the last setting that carries this name, or `default` when no setting does. -/
def flagValue (name : String) (args : List FlagSetting) (default : FlagValue) : FlagValue :=
  match (args.filter (fun a => a.name = name)).getLast? with
  | some a => a.value
  | none => default

/-- A command line that sets flags of both controllers and of the metrics endpoint;
`--quota` is given twice. -/
def flaggedArgs : List FlagSetting :=
  [ .terminating "1", .quota (2 * Hour), .nonterminating "500m", .sleepDryRun false,
    .workers 4, .idleThreshold 100, .quota (3 * Hour), .enableProfiling true,
    .metricsBindAddr ":9090" ]

/-- The answers of `goodEnv` on the command line `flaggedArgs`. -/
def flaggedBoot : Boot :=
  { tQuota := { milli := 1000 }
    ntQuota := { milli := 500 }
    config := sampleConfig
    err := none
    transport := { name := "http.Transport", cancelable := true } }

/-- The `SleeperConfig` expected on `flaggedArgs` in `goodEnv`, written out. -/
def flaggedSleeperConfig : SleeperConfig :=
  { Quota := 3 * Hour
    Period := 24 * Hour
    SleepSyncPeriod := 60 * Minute
    SyncWorkers := 4
    ProjectSleepPeriod := 8 * Hour
    TermQuota := { milli := 1000 }
    NonTermQuota := { milli := 500 }
    DryRun := false
    QuotaClient := { config := setNegotiatedSerializer sampleConfig } }

/-- The `IdlerConfig` expected on `flaggedArgs` in `goodEnv`, written out. -/
def flaggedIdlerConfig : IdlerConfig :=
  { PrometheusClient :=
      { config :=
          { Address := "https://prometheus.openshift-devops-monitor.svc.cluster.local"
            Transport := { name := "http.Transport", cancelable := true } } }
    IdleSyncPeriod := 10 * Minute
    IdleQueryPeriod := 30 * Minute
    SyncWorkers := 4
    Threshold := 100
    IdleDryRun := true
    ProjectSleepPeriod := 8 * Hour }

/-- The closure expected on `flaggedArgs`, written out. -/
def flaggedClosure : MetricsClosure :=
  { collectRuntime := true
    collectCache := true
    enableProfiling := true
    metricsBindAddr := ":9090"
    sleeper := { id := 2 } }

/-! ## Lemmas: one per path through `main` -/

theorem bind_apply {α β : Type} (m : M α) (f : α → M β) (s : St) :
    (m >>= f) s = match m s with
      | .ok a s1 => f a s1
      | .halt h s1 => .halt h s1 := rfl

theorem pure_apply {α : Type} (a : α) (s : St) : (pure a : M α) s = .ok a s := rfl

theorem main_term_error (env : Env) (args : List FlagSetting) (e : String)
    (h : env.parseQuantity (flagParse args).termQuota = .error e) :
    main env args =
      { trace := [ .parseQuantity (flagParse args).termQuota false,
                   .glogInfo 0 ("Error with terminating quota: " ++ e),
                   .osExit 1 ],
        halt := .exit 1 } := by
  simp [main, mainM, bind_apply, pure_apply, ParseQuantity, emit, h, glogInfof, osExit, halt,
    St.init, Except.toBool]

theorem main_nonterm_error (env : Env) (args : List FlagSetting) (q : Quantity) (e : String)
    (h1 : env.parseQuantity (flagParse args).termQuota = .ok q)
    (h2 : env.parseQuantity (flagParse args).nontermQuota = .error e) :
    main env args =
      { trace := [ .parseQuantity (flagParse args).termQuota true,
                   .parseQuantity (flagParse args).nontermQuota false,
                   .glogInfo 0 ("Error with non-terminating quota: " ++ e),
                   .osExit 1 ],
        halt := .exit 1 } := by
  simp [main, mainM, bind_apply, pure_apply, ParseQuantity, emit, h1, h2, glogInfof, osExit,
    halt, St.init, Except.toBool]

theorem main_booted (env : Env) (args : List FlagSetting) (b : Boot) (h : Booted env args b) :
    main env args =
      { trace := b.setupTrace args ++ b.runTrace args, halt := .blocked { id := 0 } } := by
  obtain ⟨h1, h2, h3, h4, h5, h6, h7, h8⟩ := h
  rcases b with ⟨tq, ntq, c, err, t⟩
  simp only [Boot.created, Boot.final] at *
  cases err <;>
  simp [main, mainM, bind_apply, pure_apply, ParseQuantity, emit, h1, h2, h3, h4, h5, h6, h7, h8,
    glogInfof, osExit, halt, St.init, Except.toBool, createClients, CreateClientsForConfig,
    InClusterConfig, assign, deref, Heap.alloc, Heap.load, Heap.store, kubeNewForConfigOrDie,
    osNewForConfigOrDie, TransportFor, assertCancelable, prometheusNew, makeChan, fresh, NewCache,
    NewSleeper, NewIdler, Boot.setupTrace, Boot.runTrace, Boot.sleeperConfig, Boot.idlerConfig,
    Boot.created, Boot.final, quotaTrace, inClusterLog]

theorem main_no_config (env : Env) (args : List FlagSetting) (tq ntq : Quantity)
    (err : Option String)
    (h1 : env.parseQuantity (flagParse args).termQuota = .ok tq)
    (h2 : env.parseQuantity (flagParse args).nontermQuota = .ok ntq)
    (h3 : env.inClusterConfig = (none, err)) :
    main env args =
      { trace := quotaTrace args none err,
        halt := .panic "runtime error: invalid memory address or nil pointer dereference" } := by
  cases err <;>
  simp [main, mainM, bind_apply, pure_apply, ParseQuantity, emit, h1, h2, h3,
    glogInfof, halt, St.init, Except.toBool, createClients, CreateClientsForConfig,
    InClusterConfig, assign, deref, nilDeref, quotaTrace, inClusterLog]

theorem main_kube_error (env : Env) (args : List FlagSetting) (tq ntq : Quantity)
    (c : RestConfig) (err : Option String) (e : String)
    (h1 : env.parseQuantity (flagParse args).termQuota = .ok tq)
    (h2 : env.parseQuantity (flagParse args).nontermQuota = .ok ntq)
    (h3 : env.inClusterConfig = (some c, err))
    (h4 : env.kubeNewForConfig (setNegotiatedSerializer c) = some e) :
    main env args =
      { trace := quotaTrace args (some 0) err ++
          [ .kubeNewForConfig 0 (setNegotiatedSerializer c) false ],
        halt := .panic e } := by
  cases err <;>
  simp [main, mainM, bind_apply, pure_apply, ParseQuantity, emit, h1, h2, h3, h4,
    glogInfof, halt, St.init, Except.toBool, createClients, CreateClientsForConfig,
    InClusterConfig, assign, deref, Heap.alloc, Heap.load, Heap.store, kubeNewForConfigOrDie,
    quotaTrace, inClusterLog]

theorem main_os_error (env : Env) (args : List FlagSetting) (tq ntq : Quantity)
    (c : RestConfig) (err : Option String) (e : String)
    (h1 : env.parseQuantity (flagParse args).termQuota = .ok tq)
    (h2 : env.parseQuantity (flagParse args).nontermQuota = .ok ntq)
    (h3 : env.inClusterConfig = (some c, err))
    (h4 : env.kubeNewForConfig (setNegotiatedSerializer c) = none)
    (h5 : env.osNewForConfig (setNegotiatedSerializer c) = some e) :
    main env args =
      { trace := quotaTrace args (some 0) err ++
          [ .kubeNewForConfig 0 (setNegotiatedSerializer c) true,
            .osNewForConfig 0 (setNegotiatedSerializer c) false ],
        halt := .panic e } := by
  cases err <;>
  simp [main, mainM, bind_apply, pure_apply, ParseQuantity, emit, h1, h2, h3, h4, h5,
    glogInfof, halt, St.init, Except.toBool, createClients, CreateClientsForConfig,
    InClusterConfig, assign, deref, Heap.alloc, Heap.load, Heap.store, kubeNewForConfigOrDie,
    osNewForConfigOrDie, quotaTrace, inClusterLog]

theorem main_transport_error (env : Env) (args : List FlagSetting) (tq ntq : Quantity)
    (c : RestConfig) (err : Option String) (e : String)
    (h1 : env.parseQuantity (flagParse args).termQuota = .ok tq)
    (h2 : env.parseQuantity (flagParse args).nontermQuota = .ok ntq)
    (h3 : env.inClusterConfig = (some c, err))
    (h4 : env.kubeNewForConfig (setNegotiatedSerializer c) = none)
    (h5 : env.osNewForConfig (setNegotiatedSerializer c) = none)
    (h6 : env.transportFor (setCAFile (setNegotiatedSerializer c)) = .error e) :
    main env args =
      { trace := quotaTrace args (some 0) err ++
          [ .kubeNewForConfig 0 (setNegotiatedSerializer c) true,
            .osNewForConfig 0 (setNegotiatedSerializer c) true,
            .transportFor 0 (setCAFile (setNegotiatedSerializer c)) false,
            .glogFatal ("Error creating prometheus client config: " ++ e) ],
        halt := .exit glogFatalStatus } := by
  cases err <;>
  simp [main, mainM, bind_apply, pure_apply, ParseQuantity, emit, h1, h2, h3, h4, h5, h6,
    glogInfof, glogFatalf, halt, St.init, Except.toBool, createClients, CreateClientsForConfig,
    InClusterConfig, assign, deref, Heap.alloc, Heap.load, Heap.store, kubeNewForConfigOrDie,
    osNewForConfigOrDie, TransportFor, quotaTrace, inClusterLog]

theorem main_not_cancelable (env : Env) (args : List FlagSetting) (tq ntq : Quantity)
    (c : RestConfig) (err : Option String) (t : Transport)
    (h1 : env.parseQuantity (flagParse args).termQuota = .ok tq)
    (h2 : env.parseQuantity (flagParse args).nontermQuota = .ok ntq)
    (h3 : env.inClusterConfig = (some c, err))
    (h4 : env.kubeNewForConfig (setNegotiatedSerializer c) = none)
    (h5 : env.osNewForConfig (setNegotiatedSerializer c) = none)
    (h6 : env.transportFor (setCAFile (setNegotiatedSerializer c)) = .ok t)
    (h7 : t.cancelable = false) :
    main env args =
      { trace := quotaTrace args (some 0) err ++
          [ .kubeNewForConfig 0 (setNegotiatedSerializer c) true,
            .osNewForConfig 0 (setNegotiatedSerializer c) true,
            .transportFor 0 (setCAFile (setNegotiatedSerializer c)) true ],
        halt := .panic "interface conversion: not a prometheus.CancelableTransport" } := by
  cases err <;>
  simp [main, mainM, bind_apply, pure_apply, ParseQuantity, emit, h1, h2, h3, h4, h5, h6, h7,
    glogInfof, halt, St.init, Except.toBool, createClients, CreateClientsForConfig,
    InClusterConfig, assign, deref, Heap.alloc, Heap.load, Heap.store, kubeNewForConfigOrDie,
    osNewForConfigOrDie, TransportFor, assertCancelable, quotaTrace, inClusterLog]

theorem main_prometheus_error (env : Env) (args : List FlagSetting) (tq ntq : Quantity)
    (c : RestConfig) (err : Option String) (t : Transport) (e : String)
    (h1 : env.parseQuantity (flagParse args).termQuota = .ok tq)
    (h2 : env.parseQuantity (flagParse args).nontermQuota = .ok ntq)
    (h3 : env.inClusterConfig = (some c, err))
    (h4 : env.kubeNewForConfig (setNegotiatedSerializer c) = none)
    (h5 : env.osNewForConfig (setNegotiatedSerializer c) = none)
    (h6 : env.transportFor (setCAFile (setNegotiatedSerializer c)) = .ok t)
    (h7 : t.cancelable = true)
    (h8 : env.prometheusNew { Address := (flagParse args).prometheusURL, Transport := t }
      = some e) :
    main env args =
      { trace := quotaTrace args (some 0) err ++
          [ .kubeNewForConfig 0 (setNegotiatedSerializer c) true,
            .osNewForConfig 0 (setNegotiatedSerializer c) true,
            .transportFor 0 (setCAFile (setNegotiatedSerializer c)) true,
            .prometheusNew { Address := (flagParse args).prometheusURL, Transport := t } false,
            .glogFatal ("Error creating Prometheus client: " ++ e) ],
        halt := .exit glogFatalStatus } := by
  cases err <;>
  simp [main, mainM, bind_apply, pure_apply, ParseQuantity, emit, h1, h2, h3, h4, h5, h6, h7, h8,
    glogInfof, glogFatalf, halt, St.init, Except.toBool, createClients, CreateClientsForConfig,
    InClusterConfig, assign, deref, Heap.alloc, Heap.load, Heap.store, kubeNewForConfigOrDie,
    osNewForConfigOrDie, TransportFor, assertCancelable, prometheusNew, quotaTrace, inClusterLog]

/-- Every execution of `main` takes one of nine paths, told apart by what the calls of
the bootstrap answer. -/
theorem main_cases (env : Env) (args : List FlagSetting) :
    (∃ e, env.parseQuantity (flagParse args).termQuota = .error e) ∨
    (∃ tq e, env.parseQuantity (flagParse args).termQuota = .ok tq ∧
      env.parseQuantity (flagParse args).nontermQuota = .error e) ∨
    (∃ tq ntq err, env.parseQuantity (flagParse args).termQuota = .ok tq ∧
      env.parseQuantity (flagParse args).nontermQuota = .ok ntq ∧
      env.inClusterConfig = (none, err)) ∨
    (∃ tq ntq c err e, env.parseQuantity (flagParse args).termQuota = .ok tq ∧
      env.parseQuantity (flagParse args).nontermQuota = .ok ntq ∧
      env.inClusterConfig = (some c, err) ∧
      env.kubeNewForConfig (setNegotiatedSerializer c) = some e) ∨
    (∃ tq ntq c err e, env.parseQuantity (flagParse args).termQuota = .ok tq ∧
      env.parseQuantity (flagParse args).nontermQuota = .ok ntq ∧
      env.inClusterConfig = (some c, err) ∧
      env.kubeNewForConfig (setNegotiatedSerializer c) = none ∧
      env.osNewForConfig (setNegotiatedSerializer c) = some e) ∨
    (∃ tq ntq c err e, env.parseQuantity (flagParse args).termQuota = .ok tq ∧
      env.parseQuantity (flagParse args).nontermQuota = .ok ntq ∧
      env.inClusterConfig = (some c, err) ∧
      env.kubeNewForConfig (setNegotiatedSerializer c) = none ∧
      env.osNewForConfig (setNegotiatedSerializer c) = none ∧
      env.transportFor (setCAFile (setNegotiatedSerializer c)) = .error e) ∨
    (∃ tq ntq c err t, env.parseQuantity (flagParse args).termQuota = .ok tq ∧
      env.parseQuantity (flagParse args).nontermQuota = .ok ntq ∧
      env.inClusterConfig = (some c, err) ∧
      env.kubeNewForConfig (setNegotiatedSerializer c) = none ∧
      env.osNewForConfig (setNegotiatedSerializer c) = none ∧
      env.transportFor (setCAFile (setNegotiatedSerializer c)) = .ok t ∧
      t.cancelable = false) ∨
    (∃ tq ntq c err t e, env.parseQuantity (flagParse args).termQuota = .ok tq ∧
      env.parseQuantity (flagParse args).nontermQuota = .ok ntq ∧
      env.inClusterConfig = (some c, err) ∧
      env.kubeNewForConfig (setNegotiatedSerializer c) = none ∧
      env.osNewForConfig (setNegotiatedSerializer c) = none ∧
      env.transportFor (setCAFile (setNegotiatedSerializer c)) = .ok t ∧
      t.cancelable = true ∧
      env.prometheusNew { Address := (flagParse args).prometheusURL, Transport := t } = some e) ∨
    (∃ b, Booted env args b) := by
  cases h1 : env.parseQuantity (flagParse args).termQuota with
  | error e => exact Or.inl ⟨e, rfl⟩
  | ok tq =>
  refine Or.inr ?_
  cases h2 : env.parseQuantity (flagParse args).nontermQuota with
  | error e => exact Or.inl ⟨tq, e, rfl, rfl⟩
  | ok ntq =>
  refine Or.inr ?_
  rcases h3 : env.inClusterConfig with ⟨_ | c, err⟩
  · exact Or.inl ⟨tq, ntq, err, rfl, rfl, rfl⟩
  refine Or.inr ?_
  cases h4 : env.kubeNewForConfig (setNegotiatedSerializer c) with
  | some e => exact Or.inl ⟨tq, ntq, c, err, e, rfl, rfl, rfl, h4⟩
  | none =>
  refine Or.inr ?_
  cases h5 : env.osNewForConfig (setNegotiatedSerializer c) with
  | some e => exact Or.inl ⟨tq, ntq, c, err, e, rfl, rfl, rfl, h4, h5⟩
  | none =>
  refine Or.inr ?_
  cases h6 : env.transportFor (setCAFile (setNegotiatedSerializer c)) with
  | error e => exact Or.inl ⟨tq, ntq, c, err, e, rfl, rfl, rfl, h4, h5, h6⟩
  | ok t =>
  refine Or.inr ?_
  cases h7 : t.cancelable with
  | false => exact Or.inl ⟨tq, ntq, c, err, t, rfl, rfl, rfl, h4, h5, h6, h7⟩
  | true =>
  refine Or.inr ?_
  cases h8 : env.prometheusNew { Address := (flagParse args).prometheusURL, Transport := t } with
  | some e => exact Or.inl ⟨tq, ntq, c, err, t, e, rfl, rfl, rfl, h4, h5, h6, h7, h8⟩
  | none =>
  exact Or.inr ⟨⟨tq, ntq, c, err, t⟩, h1, h2, h3, h4, h5, h6, h7, h8⟩

theorem quotaTrace_setup (args : List FlagSetting) (cfg : Option Ptr) (err : Option String) :
    ∀ e ∈ quotaTrace args cfg err, e.isSetup = true := by
  cases err <;> simp [quotaTrace, inClusterLog, Event.isSetup]

/-- An execution either answers every call of the bootstrap with success, and is then the
one of `main_booted`, or it stops before the stop channel is made. -/
theorem main_booted_or_setup_only (env : Env) (args : List FlagSetting) :
    (∃ b, Booted env args b) ∨
    ((∀ e ∈ (main env args).trace, e.isSetup = true) ∧
      ∀ c, (main env args).halt ≠ .blocked c) := by
  have hq := quotaTrace_setup args
  rcases main_cases env args with ⟨e, h1⟩ | ⟨tq, e, h1, h2⟩ | ⟨tq, ntq, err, h1, h2, h3⟩ |
    ⟨tq, ntq, c, err, e, h1, h2, h3, h4⟩ | ⟨tq, ntq, c, err, e, h1, h2, h3, h4, h5⟩ |
    ⟨tq, ntq, c, err, e, h1, h2, h3, h4, h5, h6⟩ |
    ⟨tq, ntq, c, err, t, h1, h2, h3, h4, h5, h6, h7⟩ |
    ⟨tq, ntq, c, err, t, e, h1, h2, h3, h4, h5, h6, h7, h8⟩ | hb
  · right; rw [main_term_error env args e h1]; simp [Event.isSetup]
  · right; rw [main_nonterm_error env args tq e h1 h2]; simp [Event.isSetup]
  · right; rw [main_no_config env args tq ntq err h1 h2 h3]; simpa using hq none err
  · right; rw [main_kube_error env args tq ntq c err e h1 h2 h3 h4]
    simp only [List.mem_append, List.mem_singleton]
    refine ⟨?_, by simp⟩
    rintro x (hx | rfl)
    · exact hq _ _ x hx
    · rfl
  · right; rw [main_os_error env args tq ntq c err e h1 h2 h3 h4 h5]
    refine ⟨?_, by simp⟩
    intro x hx
    rcases List.mem_append.1 hx with hx | hx
    · exact hq _ _ x hx
    · simp at hx; rcases hx with rfl | rfl <;> rfl
  · right; rw [main_transport_error env args tq ntq c err e h1 h2 h3 h4 h5 h6]
    refine ⟨?_, by simp⟩
    intro x hx
    rcases List.mem_append.1 hx with hx | hx
    · exact hq _ _ x hx
    · simp at hx; rcases hx with rfl | rfl | rfl | rfl <;> rfl
  · right; rw [main_not_cancelable env args tq ntq c err t h1 h2 h3 h4 h5 h6 h7]
    refine ⟨?_, by simp⟩
    intro x hx
    rcases List.mem_append.1 hx with hx | hx
    · exact hq _ _ x hx
    · simp at hx; rcases hx with rfl | rfl | rfl <;> rfl
  · right; rw [main_prometheus_error env args tq ntq c err t e h1 h2 h3 h4 h5 h6 h7 h8]
    refine ⟨?_, by simp⟩
    intro x hx
    rcases List.mem_append.1 hx with hx | hx
    · exact hq _ _ x hx
    · simp at hx; rcases hx with rfl | rfl | rfl | rfl | rfl <;> rfl
  · exact Or.inl hb

/-! ## Startup failures -/

theorem quotaTrace_classes (args : List FlagSetting) (cfg : Option Ptr) (err : Option String) :
    ∀ e ∈ quotaTrace args cfg err,
      e.isTransportSetupError = false ∧ e.isNewCache = false ∧ e.isNewController = false ∧
      e.isRun = false ∧ e.chan? = none ∧ e.cache? = none := by
  cases err <;>
  simp [quotaTrace, inClusterLog, Event.isTransportSetupError, Event.isNewCache,
    Event.isNewController, Event.isRun, Event.chan?, Event.cache?]

/-- C1: if the terminating or the non-terminating quota string fails to parse, `main`
ends the process with status 1 through `os.Exit(1)`, and the only calls it has made are
those of the quota check: no client, no cache, no controller was created and no `Run`
was called. -/
theorem main_invalid_quota_exits_before_clients (env : Env) (args : List FlagSetting)
    (h : (∃ e, env.parseQuantity (flagParse args).termQuota = .error e) ∨
      (∃ e, env.parseQuantity (flagParse args).nontermQuota = .error e)) :
    (main env args).halt = .exit 1 ∧
    (main env args).halt.status = some 1 ∧
    (main env args).trace.getLast? = some (.osExit 1) ∧
    ∀ e ∈ (main env args).trace,
      e.isQuotaCheck = true ∧ e.isClient = false ∧ e.isNewCache = false ∧
      e.isNewController = false ∧ e.isRun = false := by
  cases h1 : env.parseQuantity (flagParse args).termQuota with
  | error e1 =>
    rw [main_term_error env args e1 h1]
    simp [Halt.status, Event.isQuotaCheck, Event.isClient, Event.isNewCache,
      Event.isNewController, Event.isRun]
  | ok tq =>
    rcases h with ⟨e, he⟩ | ⟨e, he⟩
    · rw [h1] at he; cases he
    · rw [main_nonterm_error env args tq e h1 he]
      simp [Halt.status, Event.isQuotaCheck, Event.isClient, Event.isNewCache,
        Event.isNewController, Event.isRun]

/-- Witness of C1: a command line without `--nonterminating`, in an environment that
rejects the empty string. -/
theorem main_invalid_quota_exits_before_clients_witness :
    (main goodEnv [.terminating "1"]).halt = .exit 1 ∧
    (main goodEnv [.terminating "1"]).trace.getLast? = some (.osExit 1) :=
  have h := main_invalid_quota_exits_before_clients goodEnv [.terminating "1"]
    (Or.inr ⟨"quantities must match the regular expression", rfl⟩)
  ⟨h.1, h.2.2.1⟩

/-- C2: on an execution on which `restclient.TransportFor` or `prometheus.New` returns
an error, both quotas have parsed, the last call is `glog.Fatalf`, the process ends with
the non-zero status of `glog.Fatalf`, and neither `cache.NewCache` nor a controller
constructor nor any `Run` has been called. -/
theorem main_transport_setup_failure_is_fatal (env : Env) (args : List FlagSetting)
    (h : ∃ e ∈ (main env args).trace, e.isTransportSetupError = true) :
    (∃ tq ntq, env.parseQuantity (flagParse args).termQuota = .ok tq ∧
      env.parseQuantity (flagParse args).nontermQuota = .ok ntq) ∧
    (main env args).halt = .exit glogFatalStatus ∧
    (main env args).halt.status = some 255 ∧
    (∃ msg, (main env args).trace.getLast? = some (.glogFatal msg)) ∧
    ∀ e ∈ (main env args).trace,
      e.isNewCache = false ∧ e.isNewController = false ∧ e.isRun = false := by
  obtain ⟨x, hx, hxe⟩ := h
  have hq := quotaTrace_classes args
  rcases main_cases env args with ⟨e, h1⟩ | ⟨tq, e, h1, h2⟩ | ⟨tq, ntq, err, h1, h2, h3⟩ |
    ⟨tq, ntq, c, err, e, h1, h2, h3, h4⟩ | ⟨tq, ntq, c, err, e, h1, h2, h3, h4, h5⟩ |
    ⟨tq, ntq, c, err, e, h1, h2, h3, h4, h5, h6⟩ |
    ⟨tq, ntq, c, err, t, h1, h2, h3, h4, h5, h6, h7⟩ |
    ⟨tq, ntq, c, err, t, e, h1, h2, h3, h4, h5, h6, h7, h8⟩ | ⟨b, hb⟩
  · rw [main_term_error env args e h1] at hx
    simp at hx
    rcases hx with rfl | rfl | rfl <;> simp [Event.isTransportSetupError] at hxe
  · rw [main_nonterm_error env args tq e h1 h2] at hx
    simp at hx
    rcases hx with rfl | rfl | rfl | rfl <;> simp [Event.isTransportSetupError] at hxe
  · rw [main_no_config env args tq ntq err h1 h2 h3] at hx
    simp [(hq _ _ x hx).1] at hxe
  · rw [main_kube_error env args tq ntq c err e h1 h2 h3 h4] at hx
    rcases List.mem_append.1 hx with hx | hx
    · simp [(hq _ _ x hx).1] at hxe
    · simp at hx; subst hx; simp [Event.isTransportSetupError] at hxe
  · rw [main_os_error env args tq ntq c err e h1 h2 h3 h4 h5] at hx
    rcases List.mem_append.1 hx with hx | hx
    · simp [(hq _ _ x hx).1] at hxe
    · simp at hx; rcases hx with rfl | rfl <;> simp [Event.isTransportSetupError] at hxe
  · rw [main_transport_error env args tq ntq c err e h1 h2 h3 h4 h5 h6]
    refine ⟨⟨tq, ntq, h1, h2⟩, rfl, rfl,
      ⟨"Error creating prometheus client config: " ++ e, by simp⟩, ?_⟩
    intro y hy
    rcases List.mem_append.1 hy with hy | hy
    · exact ⟨(hq _ _ y hy).2.1, (hq _ _ y hy).2.2.1, (hq _ _ y hy).2.2.2.1⟩
    · simp at hy
      rcases hy with rfl | rfl | rfl | rfl <;>
        simp [Event.isNewCache, Event.isNewController, Event.isRun]
  · rw [main_not_cancelable env args tq ntq c err t h1 h2 h3 h4 h5 h6 h7] at hx
    rcases List.mem_append.1 hx with hx | hx
    · simp [(hq _ _ x hx).1] at hxe
    · simp at hx
      rcases hx with rfl | rfl | rfl <;> simp [Event.isTransportSetupError] at hxe
  · rw [main_prometheus_error env args tq ntq c err t e h1 h2 h3 h4 h5 h6 h7 h8]
    refine ⟨⟨tq, ntq, h1, h2⟩, rfl, rfl,
      ⟨"Error creating Prometheus client: " ++ e, by simp⟩, ?_⟩
    intro y hy
    rcases List.mem_append.1 hy with hy | hy
    · exact ⟨(hq _ _ y hy).2.1, (hq _ _ y hy).2.2.1, (hq _ _ y hy).2.2.2.1⟩
    · simp at hy
      rcases hy with rfl | rfl | rfl | rfl | rfl <;>
        simp [Event.isNewCache, Event.isNewController, Event.isRun]
  · rw [main_booted env args b hb] at hx
    rcases List.mem_append.1 hx with hx | hx
    · rcases List.mem_append.1 hx with hx | hx
      · simp [(hq _ _ x hx).1] at hxe
      · simp at hx
        rcases hx with rfl | rfl | rfl | rfl <;> simp [Event.isTransportSetupError] at hxe
    · simp [Boot.runTrace] at hx
      rcases hx with rfl | rfl | rfl | rfl | rfl | rfl | rfl | rfl | rfl | rfl <;>
        simp [Event.isTransportSetupError] at hxe

/-- Witness of C2: `TransportFor` fails in one environment and `prometheus.New` in
another; both executions end with the status of `glog.Fatalf`. -/
theorem main_transport_setup_failure_is_fatal_witness :
    (main badTransportEnv sampleArgs).halt = .exit 255 ∧
    (main badPrometheusEnv sampleArgs).halt = .exit 255 :=
  ⟨(main_transport_setup_failure_is_fatal badTransportEnv sampleArgs
      ⟨.transportFor 0 (setCAFile (setNegotiatedSerializer sampleConfig)) false,
        by decide, rfl⟩).2.1,
   (main_transport_setup_failure_is_fatal badPrometheusEnv sampleArgs
      ⟨.prometheusNew
          { Address := declaredFlags.prometheusURL,
            Transport := { name := "http.Transport", cancelable := true } } false,
        by decide, rfl⟩).2.1⟩

/-- C3: outside a cluster, where `InClusterConfig` returns nil and an error,
`CreateClientsForConfig` logs the error and then assigns through the nil config: it
panics and returns nothing to its caller, so `main` panics too.  And when a config comes
back together with an error, `main` builds the OpenShift client from it and goes on to
the run phase: it does not look at the error of `createClients`. -/
theorem CreateClientsForConfig_nil_config_panics :
    (∀ s : St, CreateClientsForConfig outsideClusterEnv s =
      .halt (.panic "runtime error: invalid memory address or nil pointer dereference")
        { s with trace := s.trace ++
            [ .inClusterConfig none (some errNotInCluster),
              .glogInfo 1 ("Error creating in-cluster config: " ++ errNotInCluster) ] }) ∧
    main outsideClusterEnv sampleArgs =
      { trace := [ .parseQuantity "1" true, .parseQuantity "2" true,
                   .inClusterConfig none (some errNotInCluster),
                   .glogInfo 1 ("Error creating in-cluster config: " ++ errNotInCluster) ],
        halt := .panic "runtime error: invalid memory address or nil pointer dereference" } ∧
    (.osNewForConfig 0 (setNegotiatedSerializer sampleConfig) true
        ∈ (main configAndErrorEnv sampleArgs).trace ∧
      (main configAndErrorEnv sampleArgs).halt = .blocked { id := 0 }) := by
  refine ⟨?_, ?_, ?_, ?_⟩
  · intro s
    simp [CreateClientsForConfig, InClusterConfig, outsideClusterEnv, bind_apply, pure_apply,
      emit, glogInfof, assign, deref, nilDeref, halt]
  · rfl
  · decide
  · rfl

/-! ## The run phase -/

theorem booted_of_not_setup (env : Env) (args : List FlagSetting)
    (h : ∃ e ∈ (main env args).trace, e.isSetup = false) : ∃ b, Booted env args b := by
  rcases main_booted_or_setup_only env args with hb | ⟨hs, _⟩
  · exact hb
  · obtain ⟨e, he, hf⟩ := h
    rw [hs e he] at hf
    cases hf

theorem isSetup_of_isRun (e : Event) (h : e.isRun = true) : e.isSetup = false := by
  cases e <;> simp_all [Event.isRun, Event.isSetup]

theorem isSetup_of_isNewController (e : Event) (h : e.isNewController = true) :
    e.isSetup = false := by
  cases e <;> simp_all [Event.isNewController, Event.isSetup]

/-- C4: on an execution of `main` on which a `Run` is called, the events that carry a
channel are, in this order, the one `make(chan struct{})`, `cache.Run`, `sleeper.Run`,
`idler.Run` and the final receive, all five with the same channel, and `main` ends
blocked on that channel. -/
theorem main_single_stop_channel (env : Env) (args : List FlagSetting)
    (h : ∃ e ∈ (main env args).trace, e.isRun = true) :
    ∃ (c : Chan) (k : CacheRef) (s : SleeperRef) (i : IdlerRef),
      (main env args).trace.filter (fun e => e.chan?.isSome) =
        [ .makeChan c, .cacheRun k c, .sleeperRun s c, .idlerRun i c, .recv c ] ∧
      (main env args).trace.countP Event.isMakeChan = 1 ∧
      (main env args).trace.filter Event.isRun =
        [ .cacheRun k c, .sleeperRun s c, .idlerRun i c ] ∧
      (main env args).halt = .blocked c := by
  obtain ⟨e, he, hr⟩ := h
  obtain ⟨b, hb⟩ := booted_of_not_setup env args ⟨e, he, isSetup_of_isRun e hr⟩
  rw [main_booted env args b hb]
  refine ⟨{ id := 0 }, { id := 1 }, { id := 2 }, { id := 3 }, ?_⟩
  rcases b with ⟨tq, ntq, c, err, t⟩
  cases err <;> exact ⟨rfl, rfl, rfl, rfl⟩

/-- Witness of C4: the execution in which every call succeeds. -/
theorem main_single_stop_channel_witness :
    ∃ (c : Chan) (k : CacheRef) (s : SleeperRef) (i : IdlerRef),
      (main goodEnv sampleArgs).trace.filter (fun e => e.chan?.isSome) =
        [ .makeChan c, .cacheRun k c, .sleeperRun s c, .idlerRun i c, .recv c ] ∧
      (main goodEnv sampleArgs).trace.countP Event.isMakeChan = 1 ∧
      (main goodEnv sampleArgs).trace.filter Event.isRun =
        [ .cacheRun k c, .sleeperRun s c, .idlerRun i c ] ∧
      (main goodEnv sampleArgs).halt = .blocked c :=
  main_single_stop_channel goodEnv sampleArgs
    ⟨.cacheRun { id := 1 } { id := 0 }, by decide, rfl⟩

/-- C5: on an execution of `main` on which a controller is constructed, the events that
construct or run something over a cache are, in this order: the one `cache.NewCache`
returning `k`, `cache.Run` on `k`, `forcesleep.NewSleeper` over `k`, `sleeper.Run`,
`idling.NewIdler` over the same `k`, `idler.Run`. -/
theorem main_controllers_share_cache (env : Env) (args : List FlagSetting)
    (h : ∃ e ∈ (main env args).trace, e.isNewController = true) :
    ∃ (k : CacheRef) (c : Chan) (os : OsClient) (kube : KubeClient) (p : Ptr)
      (cfg : RestConfig) (sc : SleeperConfig) (s : SleeperRef) (ic : IdlerConfig)
      (i : IdlerRef),
      (main env args).trace.filter (fun e => e.cache?.isSome || e.isRun) =
        [ .newCache os kube p cfg k, .cacheRun k c, .newSleeper sc k s, .sleeperRun s c,
          .newIdler ic k i, .idlerRun i c ] ∧
      (main env args).trace.countP Event.isNewCache = 1 ∧
      (main env args).trace.filter Event.isNewController =
        [ .newSleeper sc k s, .newIdler ic k i ] := by
  obtain ⟨e, he, hr⟩ := h
  obtain ⟨b, hb⟩ := booted_of_not_setup env args ⟨e, he, isSetup_of_isNewController e hr⟩
  rw [main_booted env args b hb]
  refine ⟨{ id := 1 }, { id := 0 }, { config := b.created }, { config := b.created }, 0,
    b.final, b.sleeperConfig args, { id := 2 }, b.idlerConfig args, { id := 3 }, ?_⟩
  rcases b with ⟨tq, ntq, c, err, t⟩
  cases err <;> exact ⟨rfl, rfl, rfl⟩

/-- Witness of C5: the execution in which every call succeeds. -/
theorem main_controllers_share_cache_witness :
    ∃ (k : CacheRef) (c : Chan) (os : OsClient) (kube : KubeClient) (p : Ptr)
      (cfg : RestConfig) (sc : SleeperConfig) (s : SleeperRef) (ic : IdlerConfig)
      (i : IdlerRef),
      (main goodEnv sampleArgs).trace.filter (fun e => e.cache?.isSome || e.isRun) =
        [ .newCache os kube p cfg k, .cacheRun k c, .newSleeper sc k s, .sleeperRun s c,
          .newIdler ic k i, .idlerRun i c ] ∧
      (main goodEnv sampleArgs).trace.countP Event.isNewCache = 1 ∧
      (main goodEnv sampleArgs).trace.filter Event.isNewController =
        [ .newSleeper sc k s, .newIdler ic k i ] :=
  main_controllers_share_cache goodEnv sampleArgs
    ⟨.newIdler (sampleBoot.idlerConfig sampleArgs) { id := 1 } { id := 3 }, by decide, rfl⟩

theorem setupTrace_setup (args : List FlagSetting) (b : Boot) :
    ∀ e ∈ b.setupTrace args, e.isSetup = true := by
  intro e he
  rcases List.mem_append.1 he with he | he
  · exact quotaTrace_setup args _ _ e he
  · simp at he
    rcases he with rfl | rfl | rfl | rfl <;> rfl

theorem newSleeper_mem_iff (env : Env) (args : List FlagSetting) (sc : SleeperConfig)
    (k : CacheRef) (s : SleeperRef) :
    .newSleeper sc k s ∈ (main env args).trace ↔
      ∃ b, Booted env args b ∧ sc = b.sleeperConfig args ∧ k = { id := 1 } ∧ s = { id := 2 } := by
  constructor
  · intro h
    obtain ⟨b, hb⟩ := booted_of_not_setup env args ⟨_, h, rfl⟩
    rw [main_booted env args b hb] at h
    rcases List.mem_append.1 h with h | h
    · have := setupTrace_setup args b _ h
      simp [Event.isSetup] at this
    · simp [Boot.runTrace] at h
      exact ⟨b, hb, h⟩
  · rintro ⟨b, hb, rfl, rfl, rfl⟩
    rw [main_booted env args b hb]
    simp [Boot.runTrace]

theorem newIdler_mem_iff (env : Env) (args : List FlagSetting) (ic : IdlerConfig)
    (k : CacheRef) (i : IdlerRef) :
    .newIdler ic k i ∈ (main env args).trace ↔
      ∃ b, Booted env args b ∧ ic = b.idlerConfig args ∧ k = { id := 1 } ∧ i = { id := 3 } := by
  constructor
  · intro h
    obtain ⟨b, hb⟩ := booted_of_not_setup env args ⟨_, h, rfl⟩
    rw [main_booted env args b hb] at h
    rcases List.mem_append.1 h with h | h
    · have := setupTrace_setup args b _ h
      simp [Event.isSetup] at this
    · simp [Boot.runTrace] at h
      exact ⟨b, hb, h⟩
  · rintro ⟨b, hb, rfl, rfl, rfl⟩
    rw [main_booted env args b hb]
    simp [Boot.runTrace]

/-! ## Flags and the command line -/

theorem flagParse_append (args : List FlagSetting) (a : FlagSetting) :
    flagParse (args ++ [a]) = (flagParse args).assign a := by
  simp [flagParse, List.foldl_append]

theorem flagValue_append (name : String) (args : List FlagSetting) (a : FlagSetting)
    (d : FlagValue) :
    flagValue name (args ++ [a]) d = if a.name = name then a.value else flagValue name args d := by
  unfold flagValue
  by_cases h : a.name = name
  · simp [List.filter_append, List.filter_cons, h]
  · simp [List.filter_append, List.filter_cons, h]

/-- A variable that every setting of the flag `name` overwrites with its value, and that
no other setting touches, holds after `flag.Parse()` the value of that flag on the
command line. -/
theorem flagParse_field (get : Flags → FlagValue) (name : String)
    (hset : ∀ (f : Flags) (a : FlagSetting), a.name = name → get (f.assign a) = a.value)
    (hkeep : ∀ (f : Flags) (a : FlagSetting), a.name ≠ name → get (f.assign a) = get f)
    (args : List FlagSetting) :
    get (flagParse args) = flagValue name args (get declaredFlags) := by
  induction args using List.reverseRecOn with
  | nil => rfl
  | append_singleton l a ih =>
    rw [flagParse_append, flagValue_append]
    by_cases h : a.name = name
    · rw [if_pos h, hset _ _ h]
    · rw [if_neg h, hkeep _ _ h, ih]

theorem flagParse_quota (args : List FlagSetting) :
    FlagValue.duration (flagParse args).quota = flagValue "quota" args (.duration (16 * Hour)) :=
  flagParse_field (fun f => .duration f.quota) "quota"
    (by intro f a h; cases a <;> simp_all [FlagSetting.name, FlagSetting.value, Flags.assign])
    (by intro f a h; cases a <;> simp_all [FlagSetting.name, Flags.assign]) args

theorem flagParse_period (args : List FlagSetting) :
    FlagValue.duration (flagParse args).period = flagValue "period" args (.duration (24 * Hour)) :=
  flagParse_field (fun f => .duration f.period) "period"
    (by intro f a h; cases a <;> simp_all [FlagSetting.name, FlagSetting.value, Flags.assign])
    (by intro f a h; cases a <;> simp_all [FlagSetting.name, Flags.assign]) args

theorem flagParse_sleepSyncPeriod (args : List FlagSetting) :
    FlagValue.duration (flagParse args).sleepSyncPeriod = flagValue "sleep-sync-period" args (.duration (60 * Minute)) :=
  flagParse_field (fun f => .duration f.sleepSyncPeriod) "sleep-sync-period"
    (by intro f a h; cases a <;> simp_all [FlagSetting.name, FlagSetting.value, Flags.assign])
    (by intro f a h; cases a <;> simp_all [FlagSetting.name, Flags.assign]) args

theorem flagParse_sleepDuration (args : List FlagSetting) :
    FlagValue.duration (flagParse args).projectSleepPeriod = flagValue "sleep-duration" args (.duration (8 * Hour)) :=
  flagParse_field (fun f => .duration f.projectSleepPeriod) "sleep-duration"
    (by intro f a h; cases a <;> simp_all [FlagSetting.name, FlagSetting.value, Flags.assign])
    (by intro f a h; cases a <;> simp_all [FlagSetting.name, Flags.assign]) args

theorem flagParse_sleepDryRun (args : List FlagSetting) :
    FlagValue.bool (flagParse args).sleepDryRun = flagValue "sleep-dry-run" args (.bool (true)) :=
  flagParse_field (fun f => .bool f.sleepDryRun) "sleep-dry-run"
    (by intro f a h; cases a <;> simp_all [FlagSetting.name, FlagSetting.value, Flags.assign])
    (by intro f a h; cases a <;> simp_all [FlagSetting.name, Flags.assign]) args

theorem flagParse_workers (args : List FlagSetting) :
    FlagValue.int (flagParse args).workers = flagValue "workers" args (.int (10)) :=
  flagParse_field (fun f => .int f.workers) "workers"
    (by intro f a h; cases a <;> simp_all [FlagSetting.name, FlagSetting.value, Flags.assign])
    (by intro f a h; cases a <;> simp_all [FlagSetting.name, Flags.assign]) args

theorem flagParse_terminating (args : List FlagSetting) :
    FlagValue.string (flagParse args).termQuota = flagValue "terminating" args (.string ("")) :=
  flagParse_field (fun f => .string f.termQuota) "terminating"
    (by intro f a h; cases a <;> simp_all [FlagSetting.name, FlagSetting.value, Flags.assign])
    (by intro f a h; cases a <;> simp_all [FlagSetting.name, Flags.assign]) args

theorem flagParse_nonterminating (args : List FlagSetting) :
    FlagValue.string (flagParse args).nontermQuota = flagValue "nonterminating" args (.string ("")) :=
  flagParse_field (fun f => .string f.nontermQuota) "nonterminating"
    (by intro f a h; cases a <;> simp_all [FlagSetting.name, FlagSetting.value, Flags.assign])
    (by intro f a h; cases a <;> simp_all [FlagSetting.name, Flags.assign]) args

theorem flagParse_metricsBindAddr (args : List FlagSetting) :
    FlagValue.string (flagParse args).metricsBindAddr = flagValue "metrics-bind-addr" args (.string (":8080")) :=
  flagParse_field (fun f => .string f.metricsBindAddr) "metrics-bind-addr"
    (by intro f a h; cases a <;> simp_all [FlagSetting.name, FlagSetting.value, Flags.assign])
    (by intro f a h; cases a <;> simp_all [FlagSetting.name, Flags.assign]) args

theorem flagParse_enableProfiling (args : List FlagSetting) :
    FlagValue.bool (flagParse args).enableProfiling = flagValue "enable-profiling" args (.bool (false)) :=
  flagParse_field (fun f => .bool f.enableProfiling) "enable-profiling"
    (by intro f a h; cases a <;> simp_all [FlagSetting.name, FlagSetting.value, Flags.assign])
    (by intro f a h; cases a <;> simp_all [FlagSetting.name, Flags.assign]) args

theorem flagParse_collectRuntime (args : List FlagSetting) :
    FlagValue.bool (flagParse args).collectRuntime = flagValue "collect-runtime" args (.bool (true)) :=
  flagParse_field (fun f => .bool f.collectRuntime) "collect-runtime"
    (by intro f a h; cases a <;> simp_all [FlagSetting.name, FlagSetting.value, Flags.assign])
    (by intro f a h; cases a <;> simp_all [FlagSetting.name, Flags.assign]) args

theorem flagParse_collectCache (args : List FlagSetting) :
    FlagValue.bool (flagParse args).collectCache = flagValue "collect-cache" args (.bool (true)) :=
  flagParse_field (fun f => .bool f.collectCache) "collect-cache"
    (by intro f a h; cases a <;> simp_all [FlagSetting.name, FlagSetting.value, Flags.assign])
    (by intro f a h; cases a <;> simp_all [FlagSetting.name, Flags.assign]) args

theorem flagParse_prometheusURL (args : List FlagSetting) :
    FlagValue.string (flagParse args).prometheusURL = flagValue "prometheus-url" args (.string ("https://prometheus.openshift-devops-monitor.svc.cluster.local")) :=
  flagParse_field (fun f => .string f.prometheusURL) "prometheus-url"
    (by intro f a h; cases a <;> simp_all [FlagSetting.name, FlagSetting.value, Flags.assign])
    (by intro f a h; cases a <;> simp_all [FlagSetting.name, Flags.assign]) args

theorem flagParse_idleSyncPeriod (args : List FlagSetting) :
    FlagValue.duration (flagParse args).idleSyncPeriod = flagValue "idle-sync-period" args (.duration (10 * Minute)) :=
  flagParse_field (fun f => .duration f.idleSyncPeriod) "idle-sync-period"
    (by intro f a h; cases a <;> simp_all [FlagSetting.name, FlagSetting.value, Flags.assign])
    (by intro f a h; cases a <;> simp_all [FlagSetting.name, Flags.assign]) args

theorem flagParse_idleQueryPeriod (args : List FlagSetting) :
    FlagValue.duration (flagParse args).idleQueryPeriod = flagValue "idle-query-period" args (.duration (30 * Minute)) :=
  flagParse_field (fun f => .duration f.idleQueryPeriod) "idle-query-period"
    (by intro f a h; cases a <;> simp_all [FlagSetting.name, FlagSetting.value, Flags.assign])
    (by intro f a h; cases a <;> simp_all [FlagSetting.name, Flags.assign]) args

theorem flagParse_idleThreshold (args : List FlagSetting) :
    FlagValue.int (flagParse args).threshold = flagValue "idle-threshold" args (.int (5000)) :=
  flagParse_field (fun f => .int f.threshold) "idle-threshold"
    (by intro f a h; cases a <;> simp_all [FlagSetting.name, FlagSetting.value, Flags.assign])
    (by intro f a h; cases a <;> simp_all [FlagSetting.name, Flags.assign]) args

theorem flagParse_idleDryRun (args : List FlagSetting) :
    FlagValue.bool (flagParse args).idleDryRun = flagValue "idle-dry-run" args (.bool (true)) :=
  flagParse_field (fun f => .bool f.idleDryRun) "idle-dry-run"
    (by intro f a h; cases a <;> simp_all [FlagSetting.name, FlagSetting.value, Flags.assign])
    (by intro f a h; cases a <;> simp_all [FlagSetting.name, Flags.assign]) args

theorem flagValue_congr (name skip : String) (hne : name ≠ skip)
    (args args2 : List FlagSetting)
    (hf : args.filter (fun a => a.name ≠ skip) = args2.filter (fun a => a.name ≠ skip))
    (d : FlagValue) : flagValue name args d = flagValue name args2 d := by
  have key : ∀ l : List FlagSetting, l.filter (fun a => a.name = name) =
      (l.filter (fun a => a.name ≠ skip)).filter (fun a => a.name = name) := by
    intro l
    rw [List.filter_filter]
    apply List.filter_congr
    intro a _
    by_cases h : a.name = name
    · have : a.name ≠ skip := by rw [h]; exact hne
      simp [h, this, hne]
    · simp [h]
  unfold flagValue
  rw [key args, key args2, hf]

theorem flagValue_absent (name : String) (args : List FlagSetting)
    (h : ∀ a ∈ args, a.name ≠ name) (d : FlagValue) : flagValue name args d = d := by
  have : args.filter (fun a => a.name = name) = [] := by
    rw [List.filter_eq_nil_iff]
    intro a ha
    simpa using h a ha
  simp [flagValue, this]

theorem field_congr {α : Type} (mk : α → FlagValue) (hinj : ∀ x y, mk x = mk y → x = y)
    (name skip : String) (hne : name ≠ skip) (args args2 : List FlagSetting)
    (hf : args.filter (fun a => a.name ≠ skip) = args2.filter (fun a => a.name ≠ skip))
    (d : FlagValue) (x y : α) (hx : mk x = flagValue name args d)
    (hy : mk y = flagValue name args2 d) : x = y :=
  hinj x y (by rw [hx, hy, flagValue_congr name skip hne args args2 hf])

/-- C6: the `SleeperConfig` and the `IdlerConfig` that `main` hands to the constructors
hold, field by field, the value that the command line gives to the flag named in the
claim: the value of the last setting of that flag, or the default of its declaration
(the two quotas as parsed).  Both configs are built on every execution that reaches a
`Run`.  Two command lines that agree on every setting but those of `sleep-dry-run` give
the same `IdlerConfig`; two that agree on every setting but those of `idle-dry-run` give
the same `SleeperConfig`. -/
theorem main_configs_from_flags (env : Env) (args : List FlagSetting) :
    (∀ sc k s, .newSleeper sc k s ∈ (main env args).trace →
      FlagValue.duration sc.Quota = flagValue "quota" args (.duration (16 * Hour)) ∧
      FlagValue.duration sc.Period = flagValue "period" args (.duration (24 * Hour)) ∧
      FlagValue.duration sc.SleepSyncPeriod =
        flagValue "sleep-sync-period" args (.duration (60 * Minute)) ∧
      FlagValue.duration sc.ProjectSleepPeriod =
        flagValue "sleep-duration" args (.duration (8 * Hour)) ∧
      FlagValue.int sc.SyncWorkers = flagValue "workers" args (.int 10) ∧
      (∃ t, flagValue "terminating" args (.string "") = .string t ∧
        env.parseQuantity t = .ok sc.TermQuota) ∧
      (∃ nt, flagValue "nonterminating" args (.string "") = .string nt ∧
        env.parseQuantity nt = .ok sc.NonTermQuota) ∧
      FlagValue.bool sc.DryRun = flagValue "sleep-dry-run" args (.bool true)) ∧
    (∀ ic k i, .newIdler ic k i ∈ (main env args).trace →
      FlagValue.duration ic.IdleSyncPeriod =
        flagValue "idle-sync-period" args (.duration (10 * Minute)) ∧
      FlagValue.duration ic.IdleQueryPeriod =
        flagValue "idle-query-period" args (.duration (30 * Minute)) ∧
      FlagValue.int ic.Threshold = flagValue "idle-threshold" args (.int 5000) ∧
      FlagValue.int ic.SyncWorkers = flagValue "workers" args (.int 10) ∧
      FlagValue.duration ic.ProjectSleepPeriod =
        flagValue "sleep-duration" args (.duration (8 * Hour)) ∧
      FlagValue.bool ic.IdleDryRun = flagValue "idle-dry-run" args (.bool true)) ∧
    ((∃ e ∈ (main env args).trace, e.isRun = true) →
      ∃ sc ic k s i, .newSleeper sc k s ∈ (main env args).trace ∧
        .newIdler ic k i ∈ (main env args).trace) ∧
    (∀ args2 : List FlagSetting,
      args.filter (fun a => a.name ≠ "sleep-dry-run") =
        args2.filter (fun a => a.name ≠ "sleep-dry-run") →
      ∀ ic, (∃ k i, .newIdler ic k i ∈ (main env args).trace) ↔
        (∃ k i, .newIdler ic k i ∈ (main env args2).trace)) ∧
    (∀ args2 : List FlagSetting,
      args.filter (fun a => a.name ≠ "idle-dry-run") =
        args2.filter (fun a => a.name ≠ "idle-dry-run") →
      ∀ sc, (∃ k s, .newSleeper sc k s ∈ (main env args).trace) ↔
        (∃ k s, .newSleeper sc k s ∈ (main env args2).trace)) := by
  have injD : ∀ x y : Duration, FlagValue.duration x = .duration y → x = y :=
    fun _ _ h => FlagValue.duration.inj h
  have injI : ∀ x y : Int, FlagValue.int x = .int y → x = y :=
    fun _ _ h => FlagValue.int.inj h
  have injS : ∀ x y : String, FlagValue.string x = .string y → x = y :=
    fun _ _ h => FlagValue.string.inj h
  have injB : ∀ x y : Bool, FlagValue.bool x = .bool y → x = y :=
    fun _ _ h => FlagValue.bool.inj h
  refine ⟨?_, ?_, ?_, ?_, ?_⟩
  · intro sc k s h
    obtain ⟨b, hb, rfl, -, -⟩ := (newSleeper_mem_iff env args sc k s).1 h
    exact ⟨flagParse_quota args, flagParse_period args, flagParse_sleepSyncPeriod args,
      flagParse_sleepDuration args, flagParse_workers args,
      ⟨_, (flagParse_terminating args).symm, hb.1⟩,
      ⟨_, (flagParse_nonterminating args).symm, hb.2.1⟩, flagParse_sleepDryRun args⟩
  · intro ic k i h
    obtain ⟨b, hb, rfl, -, -⟩ := (newIdler_mem_iff env args ic k i).1 h
    exact ⟨flagParse_idleSyncPeriod args, flagParse_idleQueryPeriod args,
      flagParse_idleThreshold args, flagParse_workers args, flagParse_sleepDuration args,
      flagParse_idleDryRun args⟩
  · rintro ⟨e, he, hr⟩
    obtain ⟨b, hb⟩ := booted_of_not_setup env args ⟨e, he, isSetup_of_isRun e hr⟩
    exact ⟨b.sleeperConfig args, b.idlerConfig args, { id := 1 }, { id := 2 }, { id := 3 },
      (newSleeper_mem_iff env args _ _ _).2 ⟨b, hb, rfl, rfl, rfl⟩,
      (newIdler_mem_iff env args _ _ _).2 ⟨b, hb, rfl, rfl, rfl⟩⟩
  · intro args2 hf ic
    have e1 : (flagParse args).termQuota = (flagParse args2).termQuota :=
      field_congr _ injS "terminating" "sleep-dry-run" (by decide) args args2 hf _ _ _
        (flagParse_terminating args) (flagParse_terminating args2)
    have e2 : (flagParse args).nontermQuota = (flagParse args2).nontermQuota :=
      field_congr _ injS "nonterminating" "sleep-dry-run" (by decide) args args2 hf _ _ _
        (flagParse_nonterminating args) (flagParse_nonterminating args2)
    have e3 : (flagParse args).prometheusURL = (flagParse args2).prometheusURL :=
      field_congr _ injS "prometheus-url" "sleep-dry-run" (by decide) args args2 hf _ _ _
        (flagParse_prometheusURL args) (flagParse_prometheusURL args2)
    have e4 : (flagParse args).idleSyncPeriod = (flagParse args2).idleSyncPeriod :=
      field_congr _ injD "idle-sync-period" "sleep-dry-run" (by decide) args args2 hf _ _ _
        (flagParse_idleSyncPeriod args) (flagParse_idleSyncPeriod args2)
    have e5 : (flagParse args).idleQueryPeriod = (flagParse args2).idleQueryPeriod :=
      field_congr _ injD "idle-query-period" "sleep-dry-run" (by decide) args args2 hf _ _ _
        (flagParse_idleQueryPeriod args) (flagParse_idleQueryPeriod args2)
    have e6 : (flagParse args).workers = (flagParse args2).workers :=
      field_congr _ injI "workers" "sleep-dry-run" (by decide) args args2 hf _ _ _
        (flagParse_workers args) (flagParse_workers args2)
    have e7 : (flagParse args).threshold = (flagParse args2).threshold :=
      field_congr _ injI "idle-threshold" "sleep-dry-run" (by decide) args args2 hf _ _ _
        (flagParse_idleThreshold args) (flagParse_idleThreshold args2)
    have e8 : (flagParse args).idleDryRun = (flagParse args2).idleDryRun :=
      field_congr _ injB "idle-dry-run" "sleep-dry-run" (by decide) args args2 hf _ _ _
        (flagParse_idleDryRun args) (flagParse_idleDryRun args2)
    have e9 : (flagParse args).projectSleepPeriod = (flagParse args2).projectSleepPeriod :=
      field_congr _ injD "sleep-duration" "sleep-dry-run" (by decide) args args2 hf _ _ _
        (flagParse_sleepDuration args) (flagParse_sleepDuration args2)
    have hB : ∀ b, Booted env args b ↔ Booted env args2 b := by
      intro b; simp [Booted, e1, e2, e3]
    have hI : ∀ b : Boot, b.idlerConfig args = b.idlerConfig args2 := by
      intro b; simp [Boot.idlerConfig, e3, e4, e5, e6, e7, e8, e9]
    constructor
    · rintro ⟨k, i, h⟩
      obtain ⟨b, hb, rfl, rfl, rfl⟩ := (newIdler_mem_iff env args ic k i).1 h
      exact ⟨_, _, (newIdler_mem_iff env args2 _ _ _).2 ⟨b, (hB b).1 hb, hI b, rfl, rfl⟩⟩
    · rintro ⟨k, i, h⟩
      obtain ⟨b, hb, rfl, rfl, rfl⟩ := (newIdler_mem_iff env args2 ic k i).1 h
      exact ⟨_, _, (newIdler_mem_iff env args _ _ _).2 ⟨b, (hB b).2 hb, (hI b).symm, rfl, rfl⟩⟩
  · intro args2 hf sc
    have e1 : (flagParse args).termQuota = (flagParse args2).termQuota :=
      field_congr _ injS "terminating" "idle-dry-run" (by decide) args args2 hf _ _ _
        (flagParse_terminating args) (flagParse_terminating args2)
    have e2 : (flagParse args).nontermQuota = (flagParse args2).nontermQuota :=
      field_congr _ injS "nonterminating" "idle-dry-run" (by decide) args args2 hf _ _ _
        (flagParse_nonterminating args) (flagParse_nonterminating args2)
    have e3 : (flagParse args).prometheusURL = (flagParse args2).prometheusURL :=
      field_congr _ injS "prometheus-url" "idle-dry-run" (by decide) args args2 hf _ _ _
        (flagParse_prometheusURL args) (flagParse_prometheusURL args2)
    have e4 : (flagParse args).quota = (flagParse args2).quota :=
      field_congr _ injD "quota" "idle-dry-run" (by decide) args args2 hf _ _ _
        (flagParse_quota args) (flagParse_quota args2)
    have e5 : (flagParse args).period = (flagParse args2).period :=
      field_congr _ injD "period" "idle-dry-run" (by decide) args args2 hf _ _ _
        (flagParse_period args) (flagParse_period args2)
    have e6 : (flagParse args).workers = (flagParse args2).workers :=
      field_congr _ injI "workers" "idle-dry-run" (by decide) args args2 hf _ _ _
        (flagParse_workers args) (flagParse_workers args2)
    have e7 : (flagParse args).sleepSyncPeriod = (flagParse args2).sleepSyncPeriod :=
      field_congr _ injD "sleep-sync-period" "idle-dry-run" (by decide) args args2 hf _ _ _
        (flagParse_sleepSyncPeriod args) (flagParse_sleepSyncPeriod args2)
    have e8 : (flagParse args).sleepDryRun = (flagParse args2).sleepDryRun :=
      field_congr _ injB "sleep-dry-run" "idle-dry-run" (by decide) args args2 hf _ _ _
        (flagParse_sleepDryRun args) (flagParse_sleepDryRun args2)
    have e9 : (flagParse args).projectSleepPeriod = (flagParse args2).projectSleepPeriod :=
      field_congr _ injD "sleep-duration" "idle-dry-run" (by decide) args args2 hf _ _ _
        (flagParse_sleepDuration args) (flagParse_sleepDuration args2)
    have hB : ∀ b, Booted env args b ↔ Booted env args2 b := by
      intro b; simp [Booted, e1, e2, e3]
    have hS : ∀ b : Boot, b.sleeperConfig args = b.sleeperConfig args2 := by
      intro b; simp [Boot.sleeperConfig, e4, e5, e6, e7, e8, e9]
    constructor
    · rintro ⟨k, s, h⟩
      obtain ⟨b, hb, rfl, rfl, rfl⟩ := (newSleeper_mem_iff env args sc k s).1 h
      exact ⟨_, _, (newSleeper_mem_iff env args2 _ _ _).2 ⟨b, (hB b).1 hb, hS b, rfl, rfl⟩⟩
    · rintro ⟨k, s, h⟩
      obtain ⟨b, hb, rfl, rfl, rfl⟩ := (newSleeper_mem_iff env args2 sc k s).1 h
      exact ⟨_, _, (newSleeper_mem_iff env args _ _ _).2
        ⟨b, (hB b).2 hb, (hS b).symm, rfl, rfl⟩⟩

/-- Witness of C6: on `flaggedArgs`, in the environment in which every call succeeds,
`main` calls both constructors; the `SleeperConfig` has the quota of the last `--quota`,
the dry-run value of `--sleep-dry-run` and the workers of `--workers`, the `IdlerConfig`
the threshold of `--idle-threshold` and the default dry-run; and one more
`--sleep-dry-run` leaves the `IdlerConfig` as it was. -/
theorem main_configs_from_flags_witness :
    (.newSleeper flaggedSleeperConfig { id := 1 } { id := 2 }
        ∈ (main goodEnv flaggedArgs).trace ∧
      FlagValue.duration flaggedSleeperConfig.Quota = .duration (3 * Hour) ∧
      FlagValue.int flaggedSleeperConfig.SyncWorkers = .int 4 ∧
      FlagValue.bool flaggedSleeperConfig.DryRun = .bool false) ∧
    (.newIdler flaggedIdlerConfig { id := 1 } { id := 3 }
        ∈ (main goodEnv flaggedArgs).trace ∧
      FlagValue.int flaggedIdlerConfig.Threshold = .int 100 ∧
      FlagValue.bool flaggedIdlerConfig.IdleDryRun = .bool true) ∧
    ((∃ k i, .newIdler flaggedIdlerConfig k i ∈ (main goodEnv flaggedArgs).trace) ↔
      (∃ k i, .newIdler flaggedIdlerConfig k i
        ∈ (main goodEnv (flaggedArgs ++ [.sleepDryRun true])).trace)) :=
  have h := main_configs_from_flags goodEnv flaggedArgs
  have hs := h.1 flaggedSleeperConfig { id := 1 } { id := 2 } (by decide)
  have hi := h.2.1 flaggedIdlerConfig { id := 1 } { id := 3 } (by decide)
  ⟨⟨by decide, hs.1, hs.2.2.2.2.1, hs.2.2.2.2.2.2.2⟩,
   ⟨by decide, hi.2.2.1, hi.2.2.2.2.2⟩,
   h.2.2.2.1 (flaggedArgs ++ [.sleepDryRun true]) (by decide) flaggedIdlerConfig⟩

/-- C10: on an execution on which `cache.NewCache` is called, the config it is handed is
the object `InClusterConfig` allocated and `createClients` returned (same address `p`),
with the content `TransportFor` saw: the content at the return of `createClients` with
`CAFile` replaced by the service CA path and nothing else changed.  The Kubernetes and
the OpenShift client were built, earlier, from the content without that change. -/
theorem main_cache_gets_modified_config (env : Env) (args : List FlagSetting)
    (os : OsClient) (kube : KubeClient) (p : Ptr) (cfg : RestConfig) (k : CacheRef)
    (h : .newCache os kube p cfg k ∈ (main env args).trace) :
    ∃ (c0 : RestConfig) (err : Option String),
      env.inClusterConfig = (some c0, err) ∧
      .inClusterConfig (some p) err ∈ (main env args).trace ∧
      (main env args).trace.filter (fun e => e.config?.isSome) =
        [ .kubeNewForConfig p (setNegotiatedSerializer c0) true,
          .osNewForConfig p (setNegotiatedSerializer c0) true,
          .transportFor p cfg true,
          .newCache os kube p cfg k ] ∧
      kube.config = setNegotiatedSerializer c0 ∧
      os.config = setNegotiatedSerializer c0 ∧
      (setNegotiatedSerializer c0).CAFile = c0.CAFile ∧
      cfg = { setNegotiatedSerializer c0 with CAFile := serviceCAFile } ∧
      cfg.CAFile = "/var/run/secrets/kubernetes.io/serviceaccount/service-ca.crt" := by
  obtain ⟨b, hb⟩ := booted_of_not_setup env args ⟨_, h, rfl⟩
  rw [main_booted env args b hb] at h ⊢
  rcases List.mem_append.1 h with h | h
  · have := setupTrace_setup args b _ h
    simp [Event.isSetup] at this
  · simp [Boot.runTrace] at h
    obtain ⟨rfl, rfl, rfl, rfl, rfl⟩ := h
    refine ⟨b.config, b.err, hb.2.2.1, ?_, ?_, rfl, rfl, rfl, rfl, rfl⟩
    · simp [Boot.setupTrace, quotaTrace]
    · rcases b with ⟨tq, ntq, c, err, t⟩
      cases err <;> rfl

/-- Witness of C10: the execution in which every call succeeds. -/
theorem main_cache_gets_modified_config_witness :
    ∃ (c0 : RestConfig) (err : Option String),
      goodEnv.inClusterConfig = (some c0, err) ∧
      .inClusterConfig (some 0) err ∈ (main goodEnv sampleArgs).trace ∧
      (main goodEnv sampleArgs).trace.filter (fun e => e.config?.isSome) =
        [ .kubeNewForConfig 0 (setNegotiatedSerializer c0) true,
          .osNewForConfig 0 (setNegotiatedSerializer c0) true,
          .transportFor 0 sampleBoot.final true,
          .newCache { config := sampleBoot.created } { config := sampleBoot.created } 0
            sampleBoot.final { id := 1 } ] ∧
      ({ config := sampleBoot.created } : KubeClient).config = setNegotiatedSerializer c0 ∧
      ({ config := sampleBoot.created } : OsClient).config = setNegotiatedSerializer c0 ∧
      (setNegotiatedSerializer c0).CAFile = c0.CAFile ∧
      sampleBoot.final = { setNegotiatedSerializer c0 with CAFile := serviceCAFile } ∧
      sampleBoot.final.CAFile =
        "/var/run/secrets/kubernetes.io/serviceaccount/service-ca.crt" :=
  main_cache_gets_modified_config goodEnv sampleArgs { config := sampleBoot.created }
    { config := sampleBoot.created } 0 sampleBoot.final { id := 1 } (by decide)

/-! ## Defaults -/

theorem foldl_assign_clearQuotas (args : List FlagSetting)
    (hq : ∀ a ∈ args, a.isQuota = true) :
    ∀ f : Flags, (args.foldl Flags.assign f).clearQuotas = f.clearQuotas := by
  induction args with
  | nil => intro f; rfl
  | cons a rest ih =>
    intro f
    have ha : a.isQuota = true := hq a (List.mem_cons_self _ _)
    rw [List.foldl_cons, ih (fun x hx => hq x (List.mem_cons_of_mem _ hx)) (f.assign a)]
    cases a <;> first | rfl | (simp [FlagSetting.isQuota] at ha)

theorem foldl_assign_quota_only (args : List FlagSetting) (hq : ∀ a ∈ args, a.isQuota = true)
    (f : Flags) : args.foldl Flags.assign f =
      { f with termQuota := (args.foldl Flags.assign f).termQuota,
               nontermQuota := (args.foldl Flags.assign f).nontermQuota } := by
  have h := foldl_assign_clearQuotas args hq f
  generalize args.foldl Flags.assign f = g at h ⊢
  cases g
  cases f
  simp only [Flags.clearQuotas, Flags.mk.injEq] at h
  simp only [Flags.mk.injEq]
  simp [h]

theorem foldl_assign_termQuota (args : List FlagSetting)
    (h : ∀ a ∈ args, a.isTerminating = false) :
    ∀ f : Flags, (args.foldl Flags.assign f).termQuota = f.termQuota := by
  induction args with
  | nil => intro f; rfl
  | cons a rest ih =>
    intro f
    have ha : a.isTerminating = false := h a (List.mem_cons_self _ _)
    rw [List.foldl_cons, ih (fun x hx => h x (List.mem_cons_of_mem _ hx))]
    cases a <;> simp_all [Flags.assign, FlagSetting.isTerminating]

theorem foldl_assign_nontermQuota (args : List FlagSetting)
    (h : ∀ a ∈ args, a.isNonterminating = false) :
    ∀ f : Flags, (args.foldl Flags.assign f).nontermQuota = f.nontermQuota := by
  induction args with
  | nil => intro f; rfl
  | cons a rest ih =>
    intro f
    have ha : a.isNonterminating = false := h a (List.mem_cons_self _ _)
    rw [List.foldl_cons, ih (fun x hx => h x (List.mem_cons_of_mem _ hx))]
    cases a <;> simp_all [Flags.assign, FlagSetting.isNonterminating]

/-- C7: on a command line that gives no flag other than the two quotas, every other
variable keeps its declared default, and the configurations `main` hands to the two
constructors are the default ones: dry-run on for both controllers, quota 16 hours per
24 hours, sleep sync every 60 minutes, sleep duration 8 hours, idle threshold 5000 over
30 minutes, idle sync every 10 minutes, 10 workers each. -/
theorem main_default_configuration (env : Env) (args : List FlagSetting)
    (hq : ∀ a ∈ args, a.isQuota = true) :
    flagParse args = { declaredFlags with termQuota := (flagParse args).termQuota,
                                          nontermQuota := (flagParse args).nontermQuota } ∧
    (∀ sc k s, .newSleeper sc k s ∈ (main env args).trace →
      sc.DryRun = true ∧ sc.Quota = 16 * Hour ∧ sc.Period = 24 * Hour ∧
      sc.SleepSyncPeriod = 60 * Minute ∧ sc.ProjectSleepPeriod = 8 * Hour ∧
      sc.SyncWorkers = 10) ∧
    (∀ ic k i, .newIdler ic k i ∈ (main env args).trace →
      ic.IdleDryRun = true ∧ ic.Threshold = 5000 ∧ ic.IdleQueryPeriod = 30 * Minute ∧
      ic.IdleSyncPeriod = 10 * Minute ∧ ic.SyncWorkers = 10) ∧
    Minute = 60 * 1000000000 ∧ Hour = 60 * Minute := by
  have hf := foldl_assign_quota_only args hq declaredFlags
  refine ⟨hf, ?_, ?_, by decide, rfl⟩
  · intro sc k s h
    obtain ⟨b, _, rfl, -, -⟩ := (newSleeper_mem_iff env args sc k s).1 h
    simp only [Boot.sleeperConfig, flagParse]
    rw [hf]
    exact ⟨rfl, rfl, rfl, rfl, rfl, rfl⟩
  · intro ic k i h
    obtain ⟨b, _, rfl, -, -⟩ := (newIdler_mem_iff env args ic k i).1 h
    simp only [Boot.idlerConfig, flagParse]
    rw [hf]
    exact ⟨rfl, rfl, rfl, rfl, rfl⟩

/-- Witness of C7: the command line `--terminating 1 --nonterminating 2` in the
environment in which every call succeeds; both constructors are called there. -/
theorem main_default_configuration_witness :
    (.newSleeper (sampleBoot.sleeperConfig sampleArgs) { id := 1 } { id := 2 }
        ∈ (main goodEnv sampleArgs).trace ∧
      (sampleBoot.sleeperConfig sampleArgs).DryRun = true ∧
      (sampleBoot.sleeperConfig sampleArgs).Quota = 16 * Hour) ∧
    (.newIdler (sampleBoot.idlerConfig sampleArgs) { id := 1 } { id := 3 }
        ∈ (main goodEnv sampleArgs).trace ∧
      (sampleBoot.idlerConfig sampleArgs).IdleDryRun = true ∧
      (sampleBoot.idlerConfig sampleArgs).Threshold = 5000) :=
  have h := main_default_configuration goodEnv sampleArgs (by decide)
  have hs := h.2.1 (sampleBoot.sleeperConfig sampleArgs) { id := 1 } { id := 2 } (by decide)
  have hi := h.2.2.1 (sampleBoot.idlerConfig sampleArgs) { id := 1 } { id := 3 } (by decide)
  ⟨⟨by decide, hs.1, hs.2.1⟩, ⟨by decide, hi.1, hi.2.1⟩⟩

/-- C9: both quota flags are declared with the empty string as default.  In an
environment in which `resource.ParseQuantity` rejects the empty string, a command line
without `--terminating` or without `--nonterminating` makes `main` end with status 1
through `os.Exit(1)` during the quota check.  And when both quotas are invalid, the
terminating one is parsed and reported, and the process exits before the other is
looked at. -/
theorem main_unset_quota_exits (env : Env) (e0 : String)
    (hempty : env.parseQuantity "" = .error e0) :
    declaredFlags.termQuota = "" ∧ declaredFlags.nontermQuota = "" ∧
    (∀ args : List FlagSetting,
      ((∀ a ∈ args, a.isTerminating = false) ∨ (∀ a ∈ args, a.isNonterminating = false)) →
      (main env args).halt = .exit 1 ∧
      (main env args).trace.getLast? = some (.osExit 1) ∧
      ∀ e ∈ (main env args).trace, e.isQuotaCheck = true) ∧
    (∀ (args : List FlagSetting) (e1 e2 : String),
      env.parseQuantity (flagParse args).termQuota = .error e1 →
      env.parseQuantity (flagParse args).nontermQuota = .error e2 →
      main env args =
        { trace := [ .parseQuantity (flagParse args).termQuota false,
                     .glogInfo 0 ("Error with terminating quota: " ++ e1),
                     .osExit 1 ],
          halt := .exit 1 }) := by
  refine ⟨rfl, rfl, ?_, ?_⟩
  · intro args h
    cases h1 : env.parseQuantity (flagParse args).termQuota with
    | error e1 =>
      rw [main_term_error env args e1 h1]
      simp [Event.isQuotaCheck]
    | ok tq =>
      have h2 : env.parseQuantity (flagParse args).nontermQuota = .error e0 := by
        rcases h with h | h
        · have ht : (flagParse args).termQuota = "" :=
            foldl_assign_termQuota args h declaredFlags
          rw [ht, hempty] at h1
          cases h1
        · have hn : (flagParse args).nontermQuota = "" :=
            foldl_assign_nontermQuota args h declaredFlags
          rw [hn, hempty]
      rw [main_nonterm_error env args tq e0 h1 h2]
      simp [Event.isQuotaCheck]
  · intro args e1 e2 h1 _
    exact main_term_error env args e1 h1

/-- Witness of C9: the empty command line, in an environment that rejects the empty
string. -/
theorem main_unset_quota_exits_witness :
    (main goodEnv []).halt = .exit 1 ∧
    main goodEnv [] =
      { trace := [ .parseQuantity "" false,
                   .glogInfo 0
                     "Error with terminating quota: quantities must match the regular expression",
                   .osExit 1 ],
        halt := .exit 1 } :=
  have h := main_unset_quota_exits goodEnv "quantities must match the regular expression" rfl
  ⟨(h.2.2.1 [] (Or.inl (by decide))).1,
   h.2.2.2 [] "quantities must match the regular expression"
     "quantities must match the regular expression" rfl rfl⟩

/-! ## The metrics endpoint -/

theorem goMetrics_mem_iff (env : Env) (args : List FlagSetting) (g : MetricsClosure) :
    .goMetrics g ∈ (main env args).trace ↔
      (∃ b, Booted env args b) ∧
      g = { collectRuntime := (flagParse args).collectRuntime
            collectCache := (flagParse args).collectCache
            enableProfiling := (flagParse args).enableProfiling
            metricsBindAddr := (flagParse args).metricsBindAddr
            sleeper := { id := 2 } } := by
  constructor
  · intro h
    obtain ⟨b, hb⟩ := booted_of_not_setup env args ⟨_, h, rfl⟩
    rw [main_booted env args b hb] at h
    rcases List.mem_append.1 h with h | h
    · have := setupTrace_setup args b _ h
      simp [Event.isSetup] at this
    · simp [Boot.runTrace] at h
      exact ⟨⟨b, hb⟩, h⟩
  · rintro ⟨⟨b, hb⟩, rfl⟩
    rw [main_booted env args b hb]
    simp [Boot.runTrace]

/-- C8: when `Handler()` succeeds the goroutine builds a server whose mux has the route
"/metrics" first, and has each of the five pprof routes exactly when `enableProfiling`
is true; when `Handler()` fails no server is built.  The closure `main` starts, on every
execution that reaches a `Run`, holds the values the command line gives to
`--enable-profiling` (default false) and `--metrics-bind-addr` (default ":8080"): the
server listens on that address and has the pprof routes exactly when the last
`--enable-profiling` of the command line is true; on a command line without that flag
"/metrics" is the only route. -/
theorem metrics_mux_routes (env : Env) (g : MetricsClosure) :
    (∀ e, env.metricsHandler g.config g.sleeper = .error e →
      (metricsGoroutine env g).server = none) ∧
    (∀ hn, env.metricsHandler g.config g.sleeper = .ok hn →
      ∃ srv, (metricsGoroutine env g).server = some srv ∧
        srv.Addr = g.metricsBindAddr ∧
        srv.Handler.routes.head? = some ("/metrics", hn) ∧
        "/metrics" ∈ srv.Handler.patterns ∧
        (∀ p ∈ pprofPatterns, p ∈ srv.Handler.patterns ↔ g.enableProfiling = true) ∧
        srv.Handler.patterns =
          (if g.enableProfiling then "/metrics" :: pprofPatterns else ["/metrics"])) ∧
    (∀ args, .goMetrics g ∈ (main env args).trace →
      FlagValue.bool g.enableProfiling = flagValue "enable-profiling" args (.bool false) ∧
      FlagValue.string g.metricsBindAddr =
        flagValue "metrics-bind-addr" args (.string ":8080") ∧
      ∀ hn, env.metricsHandler g.config g.sleeper = .ok hn →
        ∃ srv, (metricsGoroutine env g).server = some srv ∧
          FlagValue.string srv.Addr = flagValue "metrics-bind-addr" args (.string ":8080") ∧
          "/metrics" ∈ srv.Handler.patterns ∧
          (∀ p ∈ pprofPatterns, p ∈ srv.Handler.patterns ↔
            flagValue "enable-profiling" args (.bool false) = .bool true)) ∧
    (∀ args, (∀ a ∈ args, a.name ≠ "enable-profiling") →
      .goMetrics g ∈ (main env args).trace →
      ∀ hn, env.metricsHandler g.config g.sleeper = .ok hn →
        ∃ srv, (metricsGoroutine env g).server = some srv ∧
          srv.Handler.patterns = ["/metrics"]) ∧
    (∀ args, (∃ e ∈ (main env args).trace, e.isRun = true) →
      ∃ g2, .goMetrics g2 ∈ (main env args).trace) ∧
    declaredFlags.enableProfiling = false := by
  have hbuild : ∀ hn, env.metricsHandler g.config g.sleeper = .ok hn →
      ∃ srv, (metricsGoroutine env g).server = some srv ∧
        srv.Addr = g.metricsBindAddr ∧
        srv.Handler.routes.head? = some ("/metrics", hn) ∧
        "/metrics" ∈ srv.Handler.patterns ∧
        (∀ p ∈ pprofPatterns, p ∈ srv.Handler.patterns ↔ g.enableProfiling = true) ∧
        srv.Handler.patterns =
          (if g.enableProfiling then "/metrics" :: pprofPatterns else ["/metrics"]) := by
    intro hn hh
    simp only [MetricsClosure.config] at hh
    cases hp : g.enableProfiling <;>
    simp [metricsGoroutine, hh, hp, NewServeMux, ServeMux.Handle, ServeMux.patterns, setupPprof,
      pprofPatterns, bind, Except.bind] <;>
    cases env.listenAndServe g.metricsBindAddr <;> simp
  have hflags : ∀ args, .goMetrics g ∈ (main env args).trace →
      FlagValue.bool g.enableProfiling = flagValue "enable-profiling" args (.bool false) ∧
      FlagValue.string g.metricsBindAddr =
        flagValue "metrics-bind-addr" args (.string ":8080") := by
    intro args h
    obtain ⟨_, rfl⟩ := (goMetrics_mem_iff env args g).1 h
    exact ⟨flagParse_enableProfiling args, flagParse_metricsBindAddr args⟩
  refine ⟨?_, hbuild, ?_, ?_, ?_, rfl⟩
  · intro e he
    simp only [MetricsClosure.config] at he
    simp [metricsGoroutine, he]
  · intro args h
    obtain ⟨hp, ha⟩ := hflags args h
    refine ⟨hp, ha, ?_⟩
    intro hn hh
    obtain ⟨srv, hs, haddr, -, hm, hiff, -⟩ := hbuild hn hh
    refine ⟨srv, hs, by rw [haddr, ha], hm, ?_⟩
    intro p hpm
    rw [hiff p hpm, ← hp]
    constructor
    · intro h1; rw [h1]
    · intro h1; exact FlagValue.bool.inj h1
  · intro args habs h hn hh
    obtain ⟨hp, -⟩ := hflags args h
    rw [flagValue_absent "enable-profiling" args habs] at hp
    have hp2 : g.enableProfiling = false := FlagValue.bool.inj hp
    obtain ⟨srv, hs, -, -, -, -, hpat⟩ := hbuild hn hh
    exact ⟨srv, hs, by simpa [hp2] using hpat⟩
  · rintro args ⟨e, he, hr⟩
    obtain ⟨b, hb⟩ := booted_of_not_setup env args ⟨e, he, isSetup_of_isRun e hr⟩
    exact ⟨_, (goMetrics_mem_iff env args _).2 ⟨⟨b, hb⟩, rfl⟩⟩

/-- Witness of C8: on `flaggedArgs`, which gives `--enable-profiling` and
`--metrics-bind-addr :9090`, `main` starts a closure whose server listens on ":9090"
with "/metrics" and the five pprof routes; on `sampleArgs`, which gives neither, it
starts a closure whose server has the route "/metrics" alone. -/
theorem metrics_mux_routes_witness :
    (∃ g srv, .goMetrics g ∈ (main goodEnv flaggedArgs).trace ∧
      (metricsGoroutine goodEnv g).server = some srv ∧
      srv.Addr = ":9090" ∧
      srv.Handler.patterns = "/metrics" :: pprofPatterns) ∧
    (∃ g srv, .goMetrics g ∈ (main goodEnv sampleArgs).trace ∧
      (metricsGoroutine goodEnv g).server = some srv ∧
      srv.Handler.patterns = ["/metrics"]) :=
  have ⟨s1, h1, ha1, _, _, _, hp1⟩ :=
    (metrics_mux_routes goodEnv flaggedClosure).2.1 "promhttp.Handler" rfl
  have ⟨s0, h0, hp0⟩ :=
    (metrics_mux_routes goodEnv (sampleClosure false)).2.2.2.1 sampleArgs (by decide)
      (by decide) "promhttp.Handler" rfl
  ⟨⟨flaggedClosure, s1, by decide, h1, ha1, hp1⟩, ⟨sampleClosure false, s0, by decide, h0, hp0⟩⟩

end Hibernate
